import Mathlib

/-!
onecloud: the AWS host driver (`pkg/compute/hostdrivers/aws.go`)

A shallow embedding of `SAwsHostDriver`.  The driver is sequential code over
three kinds of collaborators:

* the remote resource facade (`cloudprovider.ICloudStorage`, `ICloudDisk`,
  `ICloudStoragecache`, ...), embedded as records holding the result of every
  call the driver makes (a function of the call's arguments);
* the task framework (`taskman.ITask`, `taskman.LocalTaskRun`) and the lock
  manager (`lockman`), embedded as events in a call trace;
* the model layer (`models.SDisk`, `models.StoragecachedimageManager`),
  embedded as explicit records that are passed in and returned.

Every driver method returns the Go result together with the list of calls it
made, in program order.  Logging (`log.Errorf`) is not recorded.

The file also embeds `ParseNamePattern` and `SplitKeyValueBySep` of the vendored
package `stringutils`, over Go strings taken as byte sequences.
-/

namespace Onecloud

/-! ## Values -/

/-- A Go `error` value as the driver observes it.  Go compares errors by
identity, so `isErrNotFound` records whether the value is the sentinel
`cloudprovider.ErrNotFound`; `text` is what `Error()` returns. -/
structure GoError where
  isErrNotFound : Bool
  text : String
deriving DecidableEq, Repr

/-- The method `Error()` of a Go error. -/
def GoError.Error (e : GoError) : String := e.text

/-- The error built by `fmt.Errorf`: a fresh value, never the not-found sentinel. -/
def Errorf (text : String) : GoError := { isErrNotFound := false, text := text }

/-- A leaf of a `jsonutils` document. -/
inductive JSONValue
  | JSONString (data : String)
  | JSONInt (data : Int)
deriving DecidableEq, Repr

/-- A result document: `jsonutils.JSONDict`, a key-value map. -/
abbrev JSONDict := List (String × JSONValue)

/-- The constructor `jsonutils.NewDict()`: the empty document. -/
def NewDict : JSONDict := []

/-- The method `(*JSONDict).Add(value, key)`: sets `key` to `value`. -/
def JSONDict.Add (d : JSONDict) (o : JSONValue) (key : String) : JSONDict :=
  if d.any (fun kv => kv.1 == key) then
    d.map (fun kv => if kv.1 == key then (key, o) else kv)
  else d ++ [(key, o)]

/-- The lookup `(*JSONDict).Get(key)`. -/
def JSONDict.Get (d : JSONDict) (key : String) : Option JSONValue :=
  (d.find? (fun kv => kv.1 == key)).map (fun kv => kv.2)

/-- A `jsonutils.JSONObject` the driver only reads (task parameters, request
content): the Go results `(value, err)` of the getters the driver calls. -/
structure JSONParams where
  GetString : List String → String × Option GoError
  Int : List String → Int × Option GoError
  QueryBoolean : String → Bool → Bool

/-- The credential token `mcclient.TokenCredential`, opaque to the driver. -/
abbrev TokenCredential := String

/-- The handle `taskman.ITask`, as far as the driver reads it. -/
structure ITask where
  GetParams : JSONParams
  GetUserCred : TokenCredential

/-! ## Remote resource facade -/

/-- The handle `cloudprovider.ICloudImage`. -/
structure ICloudImage where
  GetId : String
  Delete : Option GoError

/-- The handle `cloudprovider.ICloudSnapshot`. -/
structure ICloudSnapshot where
  GetId : String
  Delete : Option GoError

/-- The value returned by `ICloudDisk.GetMetadata()` when it is not nil: the
outcome of `Unmarshal` into a `map[string]string`. -/
structure DiskMetadata where
  Unmarshal : Except GoError (List (String × String))

/-- The handle `cloudprovider.ICloudDisk`. -/
structure ICloudDisk where
  GetGlobalId : String
  GetDiskSizeMB : Int
  GetDiskFormat : String
  GetMetadata : Option DiskMetadata
  Delete : Option GoError
  Resize : Int → Option GoError
  CreateISnapshot : String → String → Except GoError ICloudSnapshot

/-- The handle `cloudprovider.ICloudStoragecache`. -/
structure ICloudStoragecache where
  GetId : String
  CreateIImage : String → String → String → String → Except GoError ICloudImage
  DownloadImage : TokenCredential → String → String → String → Except GoError JSONDict
  UploadImage : TokenCredential → String → String → String → String → String → String → Bool →
    Except GoError String

/-- The handle `cloudprovider.ICloudStorage`. -/
structure ICloudStorage where
  GetName : String
  GetIStoragecache : Option ICloudStoragecache
  GetIDisk : String → Except GoError ICloudDisk
  CreateIDisk : String → Int → String → Except GoError ICloudDisk

/-! ## Model layer -/

/-- The record `models.SStorage`. -/
structure SStorage where
  StorageType : String
  GetIStorage : Except GoError ICloudStorage

/-- The record `models.SDisk`, with the results of the model-layer calls the
driver makes on it. -/
structure SDisk where
  Name : String
  ExternalId : String
  GetIDisk : Except GoError ICloudDisk
  GetIStorage : Except GoError ICloudStorage
  SetMetadata : String → String → TokenCredential → Option GoError
  Update : Option GoError

/-- The getter `(*SDisk).GetName()`. -/
def SDisk.GetName (disk : SDisk) : String := disk.Name

/-- The getter `(*SDisk).GetExternalId()`. -/
def SDisk.GetExternalId (disk : SDisk) : String := disk.ExternalId

/-- The record `models.SStoragecache`. -/
structure SStoragecache where
  Id : String
  GetIStorageCache : Except GoError ICloudStoragecache

/-- The storage-type constants of package `models` that `ValidateDiskSize`
compares with; their values are declared outside this file set. -/
structure StorageTypes where
  STORAGE_GP2_SSD : String
  STORAGE_IO1_SSD : String
  STORAGE_ST1_HDD : String
  STORAGE_SC1_SSD : String
  STORAGE_STANDARD_SSD : String

/-- The five storage-type constants, in the order the driver tests them. -/
def StorageTypes.all (m : StorageTypes) : List String :=
  [m.STORAGE_GP2_SSD, m.STORAGE_IO1_SSD, m.STORAGE_ST1_HDD, m.STORAGE_SC1_SSD,
    m.STORAGE_STANDARD_SSD]

/-- Modelled from the spec: `utils.IsInStringArray` is declared outside this
file set; the size table of spec 4.4 gives two storage classes one row, so the
helper is the membership test of a string in an array. -/
def IsInStringArray (s : String) (arr : List String) : Bool := arr.contains s

/-- Modelled from the spec: the status constants `models.CACHED_IMAGE_STATUS_*`
are declared outside this file set.  Spec 4.3 names the states; a row that
`register` has just created is in the default state `UNREGISTERED`. -/
inductive CachedImageStatus
  | UNREGISTERED
  | CACHING
  | READY
  | CACHE_FAILED
deriving DecidableEq, Repr

/-- Modelled from the spec: the record `models.SStoragecachedimage` is declared
outside this file set.  Spec 3 gives its attributes: the composite key, the
external identifier, the status and the last status message. -/
structure SStoragecachedimage where
  StoragecacheId : String
  CachedimageId : String
  ExternalId : String
  Status : CachedImageStatus
  StatusMessage : String
deriving DecidableEq, Repr

/-- The cached-image registry: the stored rows. -/
abbrev Registry := List SStoragecachedimage

/-- Whether a row has the composite key `(storageCacheId, imageId)`. -/
def SStoragecachedimage.hasKey (r : SStoragecachedimage) (storageCacheId imageId : String) : Bool :=
  r.StoragecacheId == storageCacheId && r.CachedimageId == imageId

/-- The row stored under a composite key, if any. -/
def Registry.lookup (reg : Registry) (storageCacheId imageId : String) :
    Option SStoragecachedimage :=
  reg.find? (fun r => r.hasKey storageCacheId imageId)

/-- Modelled from the spec: `StoragecachedimageManager.Register` is declared
outside this file set.  Spec 4.3: it returns the existing row if present, else
creates one in the default state. -/
def Register (reg : Registry) (storageCacheId imageId : String) :
    Registry × SStoragecachedimage :=
  match reg.lookup storageCacheId imageId with
  | some row => (reg, row)
  | none =>
    let row : SStoragecachedimage :=
      { StoragecacheId := storageCacheId, CachedimageId := imageId, ExternalId := "",
        Status := .UNREGISTERED, StatusMessage := "" }
    (reg ++ [row], row)

/-- Modelled from the spec: `(*SStoragecachedimage).SetExternalId` is declared
outside this file set.  Spec 4.3: it records the remote image identifier on
the row. -/
def SetExternalId (reg : Registry) (scimg : SStoragecachedimage) (externalId : String) :
    Registry :=
  reg.map (fun r =>
    if r.hasKey scimg.StoragecacheId scimg.CachedimageId then { r with ExternalId := externalId }
    else r)

/-- Modelled from the spec: `(*SStoragecachedimage).SetStatus` is declared
outside this file set.  Spec 4.3: the transition function; it stores the new
status and its message on the row and enforces no transition table. -/
def SetStatus (reg : Registry) (scimg : SStoragecachedimage) (status : CachedImageStatus)
    (reason : String) : Registry :=
  reg.map (fun r =>
    if r.hasKey scimg.StoragecacheId scimg.CachedimageId then
      { r with Status := status, StatusMessage := reason }
    else r)

/-! ## Call trace -/

/-- One call made by a driver method to a collaborator. -/
inductive Event
  | StorageGetIStorage
  | DiskGetIDisk
  | DiskGetIStorage
  | GetIStoragecache
  | GetIStorageCache
  | GetIDisk (externalId : String)
  | CreateIDisk (name : String) (size : Int) (desc : String)
  | DiskDelete
  | DiskResize (size : Int)
  | CreateISnapshot (name : String) (desc : String)
  | CreateIImage (snapshotId : String) (name : String) (osType : String) (osVersion : String)
  | DownloadImage (userCred : TokenCredential) (imageId : String) (externalId : String)
      (path : String)
  | UploadImage (userCred : TokenCredential) (imageId osArch osType osDist osVersion : String)
      (externalId : String) (isForce : Bool)
  | ImageDelete
  | SnapshotDelete
  | LockRawObject (table : String) (key : String)
  | ReleaseRawObject (table : String) (key : String)
  | Register (userCred : TokenCredential) (storageCacheId : String) (imageId : String)
  | SetExternalId (externalId : String)
  | SetStatus (userCred : TokenCredential) (status : CachedImageStatus) (reason : String)
  | TableUpdate
  | SetMetadata (key : String) (value : String) (userCred : TokenCredential)
  | ScheduleRun (data : Option JSONDict)
  | LocalTaskRun
deriving DecidableEq, Repr

/-- The result documents handed to `task.ScheduleRun`, in call order. -/
def scheduleRuns : List Event → List (Option JSONDict)
  | [] => []
  | .ScheduleRun data :: rest => data :: scheduleRuns rest
  | _ :: rest => scheduleRuns rest

/-- The sizes handed to `CreateIDisk`, in call order. -/
def createIDiskSizes : List Event → List Int
  | [] => []
  | .CreateIDisk _ size _ :: rest => size :: createIDiskSizes rest
  | _ :: rest => createIDiskSizes rest

/-- The sizes handed to the remote `Resize`, in call order. -/
def resizeSizes : List Event → List Int
  | [] => []
  | .DiskResize size :: rest => size :: resizeSizes rest
  | _ :: rest => resizeSizes rest

/-- The `(status, message)` pairs written by `SetStatus`, in call order. -/
def statusWrites : List Event → List (CachedImageStatus × String)
  | [] => []
  | .SetStatus _ status reason :: rest => (status, reason) :: statusWrites rest
  | _ :: rest => statusWrites rest

/-- The external ids written by `SetExternalId`, in call order. -/
def externalIdWrites : List Event → List String
  | [] => []
  | .SetExternalId externalId :: rest => externalId :: externalIdWrites rest
  | _ :: rest => externalIdWrites rest

/-! ## The driver -/

/-- The method `SAwsHostDriver.ValidateDiskSize` (aws.go 27-48); `none` is the
Go result `nil`. -/
def ValidateDiskSize (m : StorageTypes) (storage : SStorage) (sizeGb : Int) : Option GoError :=
  if storage.StorageType = m.STORAGE_GP2_SSD then
    if sizeGb < 1 ∨ sizeGb > 16384 then
      some (Errorf ("The " ++ storage.StorageType ++
        " disk size must be in the range of 1G ~ 16384GB"))
    else none
  else if storage.StorageType = m.STORAGE_IO1_SSD then
    if sizeGb < 4 ∨ sizeGb > 16384 then
      some (Errorf ("The " ++ storage.StorageType ++
        " disk size must be in the range of 4G ~ 16384GB"))
    else none
  else if IsInStringArray storage.StorageType [m.STORAGE_ST1_HDD, m.STORAGE_SC1_SSD] then
    if sizeGb < 500 ∨ sizeGb > 16384 then
      some (Errorf ("The " ++ storage.StorageType ++
        " disk size must be in the range of 500G ~ 16384GB"))
    else none
  else if storage.StorageType = m.STORAGE_STANDARD_SSD then
    if sizeGb < 1 ∨ sizeGb > 1024 then
      some (Errorf ("The " ++ storage.StorageType ++
        " disk size must be in the range of 1G ~ 1024GB"))
    else none
  else
    some (Errorf ("Not support create " ++ storage.StorageType ++ " disk"))

/-- The result of a driver method that may hand a closure to
`taskman.LocalTaskRun`: the Go result, the calls made before returning, and
the submitted closure.  The closure runs against the cached-image registry and
yields its Go result `(JSONObject, error)`, the registry it leaves and the
calls it made. -/
structure Submission where
  err : Option GoError
  trace : List Event
  background : Option (Registry → Except GoError JSONDict × Registry × List Event)

/-- The closure `CheckAndSetCacheImage` hands to `taskman.LocalTaskRun`
(aws.go 64-87).  The deferred `ReleaseRawObject` is the last call on every
return path. -/
def CheckAndSetCacheImage_func1 (storageCache : SStoragecache) (task : ITask)
    (imageId osArch osType osDist osVersion : String) (isForce : Bool)
    (userCred : TokenCredential) (reg : Registry) :
    Except GoError JSONDict × Registry × List Event :=
  let key := storageCache.Id ++ "-" ++ imageId
  let registered := Register reg storageCache.Id imageId
  let scimg := registered.2
  let entry : List Event :=
    [.LockRawObject "cachedimages" key, .Register task.GetUserCred storageCache.Id imageId,
      .GetIStorageCache]
  match storageCache.GetIStorageCache with
  | .error err => (.error err, registered.1, entry ++ [.ReleaseRawObject "cachedimages" key])
  | .ok iStorageCache =>
    let upload : Event :=
      .UploadImage userCred imageId osArch osType osDist osVersion scimg.ExternalId isForce
    match iStorageCache.UploadImage userCred imageId osArch osType osDist osVersion
        scimg.ExternalId isForce with
    | .error err =>
      (.error err, registered.1, entry ++ [upload, .ReleaseRawObject "cachedimages" key])
    | .ok extImgId =>
      let ret := NewDict.Add (.JSONString extImgId) "image_id"
      (.ok ret, SetExternalId registered.1 scimg extImgId,
        entry ++ [upload, .SetExternalId extImgId, .ReleaseRawObject "cachedimages" key])

/-- The method `SAwsHostDriver.CheckAndSetCacheImage` (aws.go 50-89). -/
def CheckAndSetCacheImage (storageCache : SStoragecache) (task : ITask) : Submission :=
  let params := task.GetParams
  match params.GetString ["image_id"] with
  | (_, some err) => { err := some err, trace := [], background := none }
  | (imageId, none) =>
    let osArch := (params.GetString ["os_arch"]).1
    let osType := (params.GetString ["os_type"]).1
    let osDist := (params.GetString ["os_distribution"]).1
    let osVersion := (params.GetString ["os_version"]).1
    let isForce := params.QueryBoolean "is_force" false
    let userCred := task.GetUserCred
    { err := none, trace := [.LocalTaskRun],
      background := some (CheckAndSetCacheImage_func1 storageCache task imageId osArch osType
        osDist osVersion isForce userCred) }

/-- The method `SAwsHostDriver.RequestPrepareSaveDiskOnHost` (aws.go 91-94). -/
def RequestPrepareSaveDiskOnHost : Option GoError × List Event :=
  (none, [.ScheduleRun none])

/-- The closure `RequestSaveUploadImageOnHost` hands to `taskman.LocalTaskRun`
(aws.go 104-136).  `TempPath` is `options.Options.TempPath`. -/
def RequestSaveUploadImageOnHost_func1 (TempPath : String) (iDisk : ICloudDisk)
    (iStoragecache : ICloudStoragecache) (imageId : String) (task : ITask) (reg : Registry) :
    Except GoError JSONDict × Registry × List Event :=
  let snap : Event := .CreateISnapshot ("Snapshot-" ++ imageId) "PrepareSaveImage"
  match iDisk.CreateISnapshot ("Snapshot-" ++ imageId) "PrepareSaveImage" with
  | .error err => (.error err, reg, [snap])
  | .ok snapshot =>
    let params := task.GetParams
    let osType := (params.GetString ["properties", "os_type"]).1
    let registered := Register reg iStoragecache.GetId imageId
    let scimg := registered.2
    let marked : Registry × List Event :=
      if scimg.Status ≠ .READY then
        (SetStatus registered.1 scimg .CACHING "request_prepare_save_disk_on_host",
          [.SetStatus task.GetUserCred .CACHING "request_prepare_save_disk_on_host"])
      else (registered.1, [])
    let create : Event := .CreateIImage snapshot.GetId ("Image-" ++ imageId) osType ""
    let entry : List Event :=
      [snap, .Register task.GetUserCred iStoragecache.GetId imageId] ++ marked.2 ++ [create]
    match iStoragecache.CreateIImage snapshot.GetId ("Image-" ++ imageId) osType "" with
    | .error err =>
      (.error err, SetStatus marked.1 scimg .CACHE_FAILED err.Error,
        entry ++ [.SetStatus task.GetUserCred .CACHE_FAILED err.Error])
    | .ok iImage =>
      let stored := SetExternalId marked.1 scimg iImage.GetId
      let download : Event := .DownloadImage task.GetUserCred imageId iImage.GetId TempPath
      match iStoragecache.DownloadImage task.GetUserCred imageId iImage.GetId TempPath with
      | .error err =>
        (.error err, SetStatus stored scimg .CACHE_FAILED err.Error,
          entry ++ [.SetExternalId iImage.GetId, download,
            .SetStatus task.GetUserCred .CACHE_FAILED err.Error])
      | .ok result =>
        (.ok result, SetStatus stored scimg .READY "",
          entry ++ [.SetExternalId iImage.GetId, download, .ImageDelete, .SnapshotDelete,
            .SetStatus task.GetUserCred .READY ""])

/-- Modelled from the spec: `httperrors.NewResourceNotFoundError` is declared
outside this file set; it builds a validation failure carrying the formatted
message. -/
def NewResourceNotFoundError (text : String) : GoError := { isErrNotFound := false, text := text }

/-- The method `SAwsHostDriver.RequestSaveUploadImageOnHost` (aws.go 96-139). -/
def RequestSaveUploadImageOnHost (TempPath : String) (disk : SDisk) (imageId : String)
    (task : ITask) : Submission :=
  match disk.GetIDisk with
  | .error err => { err := some err, trace := [.DiskGetIDisk], background := none }
  | .ok iDisk =>
    match disk.GetIStorage with
    | .error err =>
      { err := some err, trace := [.DiskGetIDisk, .DiskGetIStorage], background := none }
    | .ok iStorage =>
      match iStorage.GetIStoragecache with
      | none =>
        { err := some (NewResourceNotFoundError
            ("fail to find iStoragecache for storage: " ++ iStorage.GetName)),
          trace := [.DiskGetIDisk, .DiskGetIStorage, .GetIStoragecache], background := none }
      | some iStoragecache =>
        { err := none,
          trace := [.DiskGetIDisk, .DiskGetIStorage, .GetIStoragecache, .LocalTaskRun],
          background := some (RequestSaveUploadImageOnHost_func1 TempPath iDisk iStoragecache
            imageId task) }

/-- The metadata loop of `RequestAllocateDiskOnStorage` (aws.go 160-164): one
`SetMetadata` call per entry; a failing call is logged and the loop goes on. -/
def setMetadataCalls (meta : List (String × String)) (userCred : TokenCredential) : List Event :=
  meta.map (fun kv => Event.SetMetadata kv.1 kv.2 userCred)

/-- The body of the update closure of `RequestAllocateDiskOnStorage`
(aws.go 152-169): the disk it leaves and the calls it makes.  It always
returns nil. -/
def RequestAllocateDiskOnStorage_func1 (disk : SDisk) (iDisk : ICloudDisk) (task : ITask) :
    SDisk × List Event :=
  let disk1 := { disk with ExternalId := iDisk.GetGlobalId }
  match iDisk.GetMetadata with
  | none => (disk1, [])
  | some metaData =>
    match metaData.Unmarshal with
    | .error _ => (disk1, [])
    | .ok meta => (disk1, setMetadataCalls meta task.GetUserCred)

/-- The method `SAwsHostDriver.RequestAllocateDiskOnStorage` (aws.go 141-181).
`content.Int` yields an `int64`; the shift `size >> 10` is the arithmetic
shift, and the conversions `int(size)` and `int64(...)` do not change the
value (Go's `int` has 64 bits on the platforms onecloud is built for). -/
def RequestAllocateDiskOnStorage (storage : SStorage) (disk : SDisk) (task : ITask)
    (content : JSONParams) : Option GoError × SDisk × List Event :=
  match storage.GetIStorage with
  | .error err => (some err, disk, [.StorageGetIStorage])
  | .ok iCloudStorage =>
    match content.Int ["size"] with
    | (_, some err) => (some err, disk, [.StorageGetIStorage])
    | (size0, none) =>
      let size := size0 >>> (10 : Nat)
      let create : Event := .CreateIDisk disk.GetName size ""
      match iCloudStorage.CreateIDisk disk.GetName size "" with
      | .error err => (some err, disk, [.StorageGetIStorage, create])
      | .ok iDisk =>
        let updated := RequestAllocateDiskOnStorage_func1 disk iDisk task
        let entry : List Event := [.StorageGetIStorage, create, .TableUpdate] ++ updated.2
        match disk.Update with
        | some err => (some err, updated.1, entry)
        | none =>
          let data := (NewDict.Add (.JSONInt iDisk.GetDiskSizeMB) "disk_size").Add
            (.JSONString iDisk.GetDiskFormat) "disk_format"
          (none, updated.1, entry ++ [.ScheduleRun (some data)])

/-- The method `SAwsHostDriver.RequestDeallocateDiskOnHost` (aws.go 183-198). -/
def RequestDeallocateDiskOnHost (storage : SStorage) (disk : SDisk) :
    Option GoError × List Event :=
  let data := NewDict
  match storage.GetIStorage with
  | .error err => (some err, [.StorageGetIStorage])
  | .ok iCloudStorage =>
    match iCloudStorage.GetIDisk disk.GetExternalId with
    | .error err =>
      if err.isErrNotFound then
        (none, [.StorageGetIStorage, .GetIDisk disk.GetExternalId, .ScheduleRun (some data)])
      else (some err, [.StorageGetIStorage, .GetIDisk disk.GetExternalId])
    | .ok iDisk =>
      match iDisk.Delete with
      | some err => (some err, [.StorageGetIStorage, .GetIDisk disk.GetExternalId, .DiskDelete])
      | none =>
        (none, [.StorageGetIStorage, .GetIDisk disk.GetExternalId, .DiskDelete,
          .ScheduleRun (some data)])

/-- The method `SAwsHostDriver.RequestResizeDiskOnHost` (aws.go 204-215);
`size` is an `int64` and `size >> 10` the arithmetic shift. -/
def RequestResizeDiskOnHost (storage : SStorage) (disk : SDisk) (size : Int) :
    Option GoError × List Event :=
  match storage.GetIStorage with
  | .error err => (some err, [.StorageGetIStorage])
  | .ok iCloudStorage =>
    match iCloudStorage.GetIDisk disk.GetExternalId with
    | .error err => (some err, [.StorageGetIStorage, .GetIDisk disk.GetExternalId])
    | .ok iDisk =>
      match iDisk.Resize (size >>> (10 : Nat)) with
      | some err =>
        (some err, [.StorageGetIStorage, .GetIDisk disk.GetExternalId,
          .DiskResize (size >>> (10 : Nat))])
      | none =>
        (none, [.StorageGetIStorage, .GetIDisk disk.GetExternalId,
          .DiskResize (size >>> (10 : Nat)), .ScheduleRun (some [("disk_size", .JSONInt size)])])

/-- The method `SAwsHostDriver.RequestResizeDiskOnHostOnline` (aws.go 200-202). -/
def RequestResizeDiskOnHostOnline (storage : SStorage) (disk : SDisk) (size : Int) :
    Option GoError × List Event :=
  RequestResizeDiskOnHost storage disk size

/-- The rows of the AWS size table as the specification lists them: storage
type, minimum and maximum size in GB. -/
def awsSizeTable (m : StorageTypes) : List (String × Int × Int) :=
  [(m.STORAGE_GP2_SSD, 1, 16384), (m.STORAGE_IO1_SSD, 4, 16384),
    (m.STORAGE_ST1_HDD, 500, 16384), (m.STORAGE_SC1_SSD, 500, 16384),
    (m.STORAGE_STANDARD_SSD, 1, 1024)]

/-- The values of the storage-type constants used to run the driver on
concrete inputs. -/
def awsStorageTypes : StorageTypes :=
  { STORAGE_GP2_SSD := "gp2", STORAGE_IO1_SSD := "io1", STORAGE_ST1_HDD := "st1",
    STORAGE_SC1_SSD := "sc1", STORAGE_STANDARD_SSD := "standard" }

/-- The storage handle used to run the disk operations on concrete inputs: it
has no remote disk (`GetIDisk` reports the not-found sentinel) and refuses to
create one. -/
def emptyCloudStorage : ICloudStorage :=
  { GetName := "storage0", GetIStoragecache := none,
    GetIDisk := fun _ => .error { isErrNotFound := true, text := "not found" },
    CreateIDisk := fun _ _ _ => .error (Errorf "quota exceeded") }

/-- A remote disk handle whose calls all succeed. -/
def sampleCloudDisk : ICloudDisk :=
  { GetGlobalId := "vol-1", GetDiskSizeMB := 10240, GetDiskFormat := "raw", GetMetadata := none,
    Delete := none, Resize := fun _ => none,
    CreateISnapshot := fun _ _ => .ok { GetId := "snap-1", Delete := none } }

/-- A storage handle that holds `sampleCloudDisk` under every external id. -/
def sampleCloudStorage : ICloudStorage :=
  { GetName := "storage1", GetIStoragecache := none,
    GetIDisk := fun _ => .ok sampleCloudDisk,
    CreateIDisk := fun _ _ _ => .ok sampleCloudDisk }

/-- A local disk record with external id `vol-1`. -/
def sampleDisk : SDisk :=
  { Name := "disk1", ExternalId := "vol-1", GetIDisk := .ok sampleCloudDisk,
    GetIStorage := .ok sampleCloudStorage, SetMetadata := fun _ _ _ => none, Update := none }

/-- A request content whose field `size` is the integer `s`. -/
def contentWithSize (s : Int) : JSONParams :=
  { GetString := fun _ => ("", some (Errorf "key not found")),
    Int := fun keys => if keys = ["size"] then (s, none) else (0, some (Errorf "key not found")),
    QueryBoolean := fun _ dflt => dflt }

/-- A task whose parameters hold `image_id = img-1` and nothing else. -/
def sampleTask : ITask :=
  { GetParams :=
      { GetString := fun keys =>
          if keys = ["image_id"] then ("img-1", none) else ("", some (Errorf "key not found")),
        Int := fun _ => (0, some (Errorf "key not found")),
        QueryBoolean := fun _ dflt => dflt },
    GetUserCred := "admin" }

/-- A storage-cache facade whose calls all succeed: it creates image
`ami-1`, exports it and uploads as `ami-2`.  Deleting the created image fails. -/
def sampleStoragecache : ICloudStoragecache :=
  { GetId := "cache-1",
    CreateIImage := fun _ _ _ _ => .ok { GetId := "ami-1", Delete := some (Errorf "in use") },
    DownloadImage := fun _ _ _ path => .ok [("image_path", .JSONString path)],
    UploadImage := fun _ _ _ _ _ _ _ _ => .ok "ami-2" }

/-- A remote disk whose snapshot cannot be deleted afterwards. -/
def snapshotDisk : ICloudDisk :=
  { sampleCloudDisk with
    CreateISnapshot := fun _ _ => .ok { GetId := "snap-1", Delete := some (Errorf "busy") } }

/-- The storage-cache record over a facade whose `UploadImage` fails. -/
def failingUploadCache : SStoragecache :=
  { Id := "cache-1",
    GetIStorageCache := .ok
      { sampleStoragecache with
        UploadImage := fun _ _ _ _ _ _ _ _ => .error (Errorf "upload failed") } }

/-- A storage-cache facade whose `CreateIImage` fails. -/
def failingCreateStoragecache : ICloudStoragecache :=
  { sampleStoragecache with CreateIImage := fun _ _ _ _ => .error (Errorf "no quota") }

/-- A storage-cache facade whose `DownloadImage` fails. -/
def failingDownloadStoragecache : ICloudStoragecache :=
  { sampleStoragecache with DownloadImage := fun _ _ _ _ => .error (Errorf "export failed") }

/-- The `(table, key)` pairs handed to `lockman.LockRawObject`, in call order. -/
def lockCalls : List Event → List (String × String)
  | [] => []
  | .LockRawObject table key :: rest => (table, key) :: lockCalls rest
  | _ :: rest => lockCalls rest

/-- The `(table, key)` pairs handed to `lockman.ReleaseRawObject`, in call order. -/
def releaseCalls : List Event → List (String × String)
  | [] => []
  | .ReleaseRawObject table key :: rest => (table, key) :: releaseCalls rest
  | _ :: rest => releaseCalls rest

/-- The number of times a trace hands the task to the task runner: the calls
of `task.ScheduleRun` plus those of `taskman.LocalTaskRun`. -/
def taskHandoffs : List Event → Nat
  | [] => 0
  | .ScheduleRun _ :: rest => taskHandoffs rest + 1
  | .LocalTaskRun :: rest => taskHandoffs rest + 1
  | _ :: rest => taskHandoffs rest

/-- Whether an event is a call on the remote resource facade made inside the
cache-image critical section. -/
def Event.isFacadeCall : Event → Bool
  | .GetIStorageCache => true
  | .UploadImage _ _ _ _ _ _ _ _ => true
  | _ => false

/-- A task whose parameters hold nothing at all. -/
def emptyTask : ITask :=
  { GetParams :=
      { GetString := fun _ => ("", some (Errorf "key not found")),
        Int := fun _ => (0, some (Errorf "key not found")),
        QueryBoolean := fun _ dflt => dflt },
    GetUserCred := "admin" }

/-- The storage-cache record over the facade whose calls all succeed. -/
def sampleCache : SStoragecache :=
  { Id := "cache-1", GetIStorageCache := .ok sampleStoragecache }

/-- A remote disk that reports metadata which cannot be unmarshalled. -/
def badMetadataDisk : ICloudDisk :=
  { sampleCloudDisk with GetMetadata := some { Unmarshal := .error (Errorf "bad json") } }

/-- A remote disk on which no snapshot can be created. -/
def noSnapshotDisk : ICloudDisk :=
  { sampleCloudDisk with CreateISnapshot := fun _ _ => .error (Errorf "snapshot limit") }

/-- A registry whose row for `(cache-1, img-1)` is READY with external id `ami-0`. -/
def readyRegistry : Registry :=
  [{ StoragecacheId := "cache-1", CachedimageId := "img-1", ExternalId := "ami-0",
      Status := .READY, StatusMessage := "" }]

/-! ## Package stringutils (`vendor/yunion.io/x/pkg/util/stringutils`) -/

/-- A Go `string`: a sequence of bytes, each given by its value. -/
abbrev GoString := List Nat

/-- The bytes of an ASCII text. -/
def ascii (s : String) : GoString := s.toList.map Char.toNat

/-- The decimal digits that the verb `%d` of `fmt.Sprintf` prints for a
non-negative integer. -/
def decimal (n : Nat) : GoString := ascii (Nat.repr n)

/-- The Go standard library function `strings.IndexByte`: the index of the
first byte `c` of `s`, or -1 when `c` is not in `s`. -/
def IndexByte : GoString → Nat → Int
  | [], _ => -1
  | b :: rest, c =>
    if b = c then 0 else if IndexByte rest c < 0 then -1 else IndexByte rest c + 1

/-- The Go standard library function `strings.Index`: the index of the first
occurrence of `substr` in `s`, or -1 when there is none; 0 for the empty
`substr`. -/
def Index : GoString → GoString → Int
  | [], substr => if substr = [] then 0 else -1
  | b :: rest, substr =>
    if substr.isPrefixOf (b :: rest) then 0
    else if Index rest substr < 0 then -1 else Index rest substr + 1

/-- The constant `RepChar` of `ParseNamePattern`: the byte `#`. -/
def RepChar : Nat := 35

/-- The loop `for end < len(name) && name[end] == RepChar { end += 1 }`
(stringutils.go 21-23).  The first argument is `name[end:]`, the bytes not yet
looked at; the result is the final value of `end`. -/
def ParseNamePattern.scan : GoString → Nat → Nat
  | [], end_ => end_
  | b :: rest, end_ => if b = RepChar then ParseNamePattern.scan rest (end_ + 1) else end_

/-- The function `stringutils.ParseNamePattern` (stringutils.go 13-33).  The
slices `name[:start]` and `name[end:]` are `take` and `drop`; their bounds
`0 <= start < end <= len(name)` are in range. -/
def ParseNamePattern (name : GoString) : GoString × GoString × Int :=
  let start := IndexByte name RepChar
  if start ≥ 0 then
    let end_ := ParseNamePattern.scan (name.drop (start.toNat + 1)) (start.toNat + 1)
    let match_ := name.take start.toNat ++ ascii "%" ++ name.drop end_
    let pattern := name.take start.toNat ++ ascii "%0" ++ decimal (end_ - start.toNat)
      ++ ascii "d" ++ name.drop end_
    let patternLen : Int := (end_ : Int) - start
    (match_, pattern, patternLen)
  else
    (name ++ ascii "-%", name ++ ascii "-%d", 0)

/-- The function `stringutils.SplitKeyValueBySep` (stringutils.go 67-75).
`TrimSpace` is the Go standard library function `strings.TrimSpace`; the slices
`line[:pos]` and `line[pos+1:]` are `take` and `drop`. -/
def SplitKeyValueBySep (TrimSpace : GoString → GoString) (line sep : GoString) :
    GoString × GoString :=
  let pos := Index line sep
  if pos > 0 then
    let key := TrimSpace (line.take pos.toNat)
    let val := TrimSpace (line.drop (pos.toNat + 1))
    (key, val)
  else ([], [])

/-- The function `stringutils.SplitKeyValue` (stringutils.go 63-65). -/
def SplitKeyValue (TrimSpace : GoString → GoString) (line : GoString) : GoString × GoString :=
  SplitKeyValueBySep TrimSpace line (ascii ":")

/-- The ASCII white space of `strings.TrimSpace`: tab, line feed, vertical tab,
form feed, carriage return and space. -/
def asciiSpace (b : Nat) : Bool :=
  b = 9 || b = 10 || b = 11 || b = 12 || b = 13 || b = 32

/-- What `strings.TrimSpace` does on ASCII text: it drops the leading and the
trailing white space. -/
def asciiTrimSpace (s : GoString) : GoString :=
  (s.dropWhile asciiSpace).rdropWhile asciiSpace

/-- A storage-cache facade whose calls all succeed and whose created image
reports the empty id. -/
def emptyIdStoragecache : ICloudStoragecache :=
  { sampleStoragecache with CreateIImage := fun _ _ _ _ => .ok { GetId := "", Delete := none } }

/-! ## Theorems -/

/-- C1: for a storage type with a row `(type, lo, hi)` in the AWS size table,
`ValidateDiskSize` returns no error exactly for the sizes `lo <= sizeGb <= hi`;
it accepts `lo` and `hi` and rejects `lo - 1` and `hi + 1`.  The five
storage-type constants are pairwise different. -/
theorem ValidateDiskSize_accepts_exactly_table_range (m : StorageTypes) (hd : m.all.Nodup)
    (storage : SStorage) (lo hi : Int)
    (hrow : (storage.StorageType, lo, hi) ∈ awsSizeTable m) :
    (∀ sizeGb : Int, ValidateDiskSize m storage sizeGb = none ↔ lo ≤ sizeGb ∧ sizeGb ≤ hi) ∧
      ValidateDiskSize m storage lo = none ∧ ValidateDiskSize m storage hi = none ∧
      ValidateDiskSize m storage (lo - 1) ≠ none ∧ ValidateDiskSize m storage (hi + 1) ≠ none := by
  have hiff : ∀ sizeGb : Int,
      ValidateDiskSize m storage sizeGb = none ↔ lo ≤ sizeGb ∧ sizeGb ≤ hi := by
    intro sizeGb
    simp only [StorageTypes.all, List.nodup_cons, List.mem_cons, List.mem_singleton, not_or,
      List.not_mem_nil, not_false_eq_true, List.nodup_nil, and_true] at hd
    obtain ⟨⟨h12, h13, h14, h15⟩, ⟨h23, h24, h25⟩, ⟨_, h35⟩, h45⟩ := hd
    simp only [awsSizeTable, List.mem_cons, List.mem_singleton, Prod.mk.injEq,
      List.not_mem_nil, or_false] at hrow
    rcases hrow with ⟨ht, rfl, rfl⟩ | ⟨ht, rfl, rfl⟩ | ⟨ht, rfl, rfl⟩ | ⟨ht, rfl, rfl⟩ |
      ⟨ht, rfl, rfl⟩
    · simp only [ValidateDiskSize, ht, if_true]
      split_ifs with h <;> simp <;> omega
    · simp only [ValidateDiskSize, ht, if_neg (Ne.symm h12), if_true]
      split_ifs with h <;> simp <;> omega
    · simp only [ValidateDiskSize, ht, if_neg (Ne.symm h13), if_neg (Ne.symm h23),
        IsInStringArray, List.contains_cons, beq_self_eq_true, Bool.true_or, if_true]
      split_ifs with h <;> simp <;> omega
    · simp only [ValidateDiskSize, ht, if_neg (Ne.symm h14), if_neg (Ne.symm h24),
        IsInStringArray, List.contains_cons, beq_self_eq_true, Bool.true_or, Bool.or_true,
        if_true]
      split_ifs with h <;> simp <;> omega
    · have hc : IsInStringArray m.STORAGE_STANDARD_SSD [m.STORAGE_ST1_HDD, m.STORAGE_SC1_SSD]
          = false := by
        simp [IsInStringArray, List.contains_cons, Ne.symm h35, Ne.symm h45]
      simp only [ValidateDiskSize, ht, if_neg (Ne.symm h15), if_neg (Ne.symm h25), hc,
        Bool.false_eq_true, if_false, if_true]
      split_ifs with h <;> simp <;> omega
  have hle : lo ≤ hi := by
    simp only [awsSizeTable, List.mem_cons, List.mem_singleton, Prod.mk.injEq,
      List.not_mem_nil, or_false] at hrow
    rcases hrow with ⟨_, rfl, rfl⟩ | ⟨_, rfl, rfl⟩ | ⟨_, rfl, rfl⟩ | ⟨_, rfl, rfl⟩ |
      ⟨_, rfl, rfl⟩ <;> decide
  refine ⟨hiff, (hiff lo).2 ⟨le_refl _, hle⟩, (hiff hi).2 ⟨hle, le_refl _⟩, ?_, ?_⟩
  · intro h
    have := (hiff (lo - 1)).1 h
    omega
  · intro h
    have := (hiff (hi + 1)).1 h
    omega

/-- C1, run on the `io1` row `(io1, 4, 16384)`. -/
theorem ValidateDiskSize_accepts_exactly_table_range_witness :
    awsStorageTypes.all.Nodup ∧
      (("io1", 4, 16384) : String × Int × Int) ∈ awsSizeTable awsStorageTypes ∧
      ((∀ sizeGb : Int,
          ValidateDiskSize awsStorageTypes
            { StorageType := "io1", GetIStorage := .ok emptyCloudStorage } sizeGb = none ↔
            4 ≤ sizeGb ∧ sizeGb ≤ 16384) ∧
        ValidateDiskSize awsStorageTypes
          { StorageType := "io1", GetIStorage := .ok emptyCloudStorage } 4 = none ∧
        ValidateDiskSize awsStorageTypes
          { StorageType := "io1", GetIStorage := .ok emptyCloudStorage } 16384 = none ∧
        ValidateDiskSize awsStorageTypes
          { StorageType := "io1", GetIStorage := .ok emptyCloudStorage } (4 - 1) ≠ none ∧
        ValidateDiskSize awsStorageTypes
          { StorageType := "io1", GetIStorage := .ok emptyCloudStorage } (16384 + 1) ≠ none) :=
  ⟨by decide, by decide,
    ValidateDiskSize_accepts_exactly_table_range awsStorageTypes (by decide)
      { StorageType := "io1", GetIStorage := .ok emptyCloudStorage } 4 16384 (by decide)⟩

/-- C2: for a storage type that is none of the five table types,
`ValidateDiskSize` returns an error for every size; the error is the
"Not support create" one. -/
theorem ValidateDiskSize_rejects_unknown_type (m : StorageTypes) (storage : SStorage)
    (sizeGb : Int) (hnot : storage.StorageType ∉ m.all) :
    ValidateDiskSize m storage sizeGb ≠ none ∧
      ValidateDiskSize m storage sizeGb =
        some (Errorf ("Not support create " ++ storage.StorageType ++ " disk")) := by
  simp only [StorageTypes.all, List.mem_cons, List.mem_singleton, not_or, List.not_mem_nil,
    not_false_eq_true, and_true] at hnot
  obtain ⟨h1, h2, h3, h4, h5⟩ := hnot
  have hc : IsInStringArray storage.StorageType [m.STORAGE_ST1_HDD, m.STORAGE_SC1_SSD]
      = false := by
    simp [IsInStringArray, List.contains_cons, h3, h4]
  simp [ValidateDiskSize, h1, h2, h5, hc]

/-- C2, run on the storage type `local` with a size that `gp2` would accept. -/
theorem ValidateDiskSize_rejects_unknown_type_witness :
    "local" ∉ awsStorageTypes.all ∧
      (ValidateDiskSize awsStorageTypes
          { StorageType := "local", GetIStorage := .ok emptyCloudStorage } 100 ≠ none ∧
        ValidateDiskSize awsStorageTypes
          { StorageType := "local", GetIStorage := .ok emptyCloudStorage } 100 =
          some (Errorf ("Not support create " ++ "local" ++ " disk"))) :=
  ⟨by decide,
    ValidateDiskSize_rejects_unknown_type awsStorageTypes
      { StorageType := "local", GetIStorage := .ok emptyCloudStorage } 100 (by decide)⟩

/-- C3: when the storage facade is obtained and `GetIDisk` fails with the
not-found sentinel, `RequestDeallocateDiskOnHost` returns nil, calls
`ScheduleRun` exactly once, with the empty result document, and never calls
`Delete` on a remote disk. -/
theorem RequestDeallocateDiskOnHost_absent_volume (storage : SStorage) (disk : SDisk)
    (iCloudStorage : ICloudStorage) (err : GoError)
    (hstorage : storage.GetIStorage = .ok iCloudStorage)
    (hdisk : iCloudStorage.GetIDisk disk.GetExternalId = .error err)
    (hnotfound : err.isErrNotFound = true) :
    (RequestDeallocateDiskOnHost storage disk).1 = none ∧
      scheduleRuns (RequestDeallocateDiskOnHost storage disk).2 = [some NewDict] ∧
      Event.DiskDelete ∉ (RequestDeallocateDiskOnHost storage disk).2 := by
  simp [RequestDeallocateDiskOnHost, hstorage, hdisk, hnotfound, scheduleRuns]

/-- C3, run on a storage that has no remote disk. -/
theorem RequestDeallocateDiskOnHost_absent_volume_witness :
    (RequestDeallocateDiskOnHost
        { StorageType := "gp2", GetIStorage := .ok emptyCloudStorage } sampleDisk).1 = none ∧
      scheduleRuns (RequestDeallocateDiskOnHost
        { StorageType := "gp2", GetIStorage := .ok emptyCloudStorage } sampleDisk).2
        = [some NewDict] ∧
      Event.DiskDelete ∉ (RequestDeallocateDiskOnHost
        { StorageType := "gp2", GetIStorage := .ok emptyCloudStorage } sampleDisk).2 :=
  RequestDeallocateDiskOnHost_absent_volume
    { StorageType := "gp2", GetIStorage := .ok emptyCloudStorage } sampleDisk emptyCloudStorage
    { isErrNotFound := true, text := "not found" } rfl rfl rfl

/-- C4: `RequestDeallocateDiskOnHost` returns exactly the error of a failing
`GetIStorage`, of a `GetIDisk` failing with anything but the not-found
sentinel, or of a failing `Delete`, and then never calls `ScheduleRun`; when
`GetIDisk` and `Delete` both succeed it returns nil and calls `ScheduleRun`
exactly once. -/
theorem RequestDeallocateDiskOnHost_propagates_failures (storage : SStorage) (disk : SDisk) :
    (∀ err, storage.GetIStorage = .error err →
        (RequestDeallocateDiskOnHost storage disk).1 = some err ∧
          scheduleRuns (RequestDeallocateDiskOnHost storage disk).2 = []) ∧
      (∀ iCloudStorage err, storage.GetIStorage = .ok iCloudStorage →
        iCloudStorage.GetIDisk disk.GetExternalId = .error err → err.isErrNotFound = false →
        (RequestDeallocateDiskOnHost storage disk).1 = some err ∧
          scheduleRuns (RequestDeallocateDiskOnHost storage disk).2 = []) ∧
      (∀ iCloudStorage iDisk err, storage.GetIStorage = .ok iCloudStorage →
        iCloudStorage.GetIDisk disk.GetExternalId = .ok iDisk → iDisk.Delete = some err →
        (RequestDeallocateDiskOnHost storage disk).1 = some err ∧
          scheduleRuns (RequestDeallocateDiskOnHost storage disk).2 = []) ∧
      (∀ iCloudStorage iDisk, storage.GetIStorage = .ok iCloudStorage →
        iCloudStorage.GetIDisk disk.GetExternalId = .ok iDisk → iDisk.Delete = none →
        (RequestDeallocateDiskOnHost storage disk).1 = none ∧
          (scheduleRuns (RequestDeallocateDiskOnHost storage disk).2).length = 1 ∧
          Event.DiskDelete ∈ (RequestDeallocateDiskOnHost storage disk).2) := by
  refine ⟨?_, ?_, ?_, ?_⟩
  · intro err hstorage
    simp [RequestDeallocateDiskOnHost, hstorage, scheduleRuns]
  · intro iCloudStorage err hstorage hdisk hother
    simp [RequestDeallocateDiskOnHost, hstorage, hdisk, hother, scheduleRuns]
  · intro iCloudStorage iDisk err hstorage hdisk hdelete
    simp [RequestDeallocateDiskOnHost, hstorage, hdisk, hdelete, scheduleRuns]
  · intro iCloudStorage iDisk hstorage hdisk hdelete
    simp [RequestDeallocateDiskOnHost, hstorage, hdisk, hdelete, scheduleRuns]

/-- C4, run on the four paths: a failing `GetIStorage`, a `GetIDisk` failing
with another error, a failing `Delete`, and a successful delete. -/
theorem RequestDeallocateDiskOnHost_propagates_failures_witness :
    ((RequestDeallocateDiskOnHost
          { StorageType := "gp2", GetIStorage := .error (Errorf "no provider") } sampleDisk).1
        = some (Errorf "no provider") ∧
      scheduleRuns (RequestDeallocateDiskOnHost
          { StorageType := "gp2", GetIStorage := .error (Errorf "no provider") } sampleDisk).2
        = []) ∧
    ((RequestDeallocateDiskOnHost
          { StorageType := "gp2", GetIStorage := .ok
              { emptyCloudStorage with GetIDisk := fun _ => .error (Errorf "timeout") } }
          sampleDisk).1 = some (Errorf "timeout") ∧
      scheduleRuns (RequestDeallocateDiskOnHost
          { StorageType := "gp2", GetIStorage := .ok
              { emptyCloudStorage with GetIDisk := fun _ => .error (Errorf "timeout") } }
          sampleDisk).2 = []) ∧
    ((RequestDeallocateDiskOnHost
          { StorageType := "gp2", GetIStorage := .ok
              { emptyCloudStorage with
                GetIDisk := fun _ => .ok { sampleCloudDisk with Delete := some (Errorf "busy") } } }
          sampleDisk).1 = some (Errorf "busy") ∧
      scheduleRuns (RequestDeallocateDiskOnHost
          { StorageType := "gp2", GetIStorage := .ok
              { emptyCloudStorage with
                GetIDisk := fun _ => .ok { sampleCloudDisk with Delete := some (Errorf "busy") } } }
          sampleDisk).2 = []) ∧
    ((RequestDeallocateDiskOnHost
          { StorageType := "gp2", GetIStorage := .ok sampleCloudStorage } sampleDisk).1 = none ∧
      (scheduleRuns (RequestDeallocateDiskOnHost
          { StorageType := "gp2", GetIStorage := .ok sampleCloudStorage } sampleDisk).2).length
        = 1 ∧
      Event.DiskDelete ∈ (RequestDeallocateDiskOnHost
          { StorageType := "gp2", GetIStorage := .ok sampleCloudStorage } sampleDisk).2) :=
  ⟨(RequestDeallocateDiskOnHost_propagates_failures
      { StorageType := "gp2", GetIStorage := .error (Errorf "no provider") } sampleDisk).1
      (Errorf "no provider") rfl,
    (RequestDeallocateDiskOnHost_propagates_failures
      { StorageType := "gp2", GetIStorage := .ok
          { emptyCloudStorage with GetIDisk := fun _ => .error (Errorf "timeout") } }
      sampleDisk).2.1 _ (Errorf "timeout") rfl rfl rfl,
    (RequestDeallocateDiskOnHost_propagates_failures
      { StorageType := "gp2", GetIStorage := .ok
          { emptyCloudStorage with
            GetIDisk := fun _ => .ok { sampleCloudDisk with Delete := some (Errorf "busy") } } }
      sampleDisk).2.2.1 _ _ (Errorf "busy") rfl rfl rfl,
    (RequestDeallocateDiskOnHost_propagates_failures
      { StorageType := "gp2", GetIStorage := .ok sampleCloudStorage } sampleDisk).2.2.2
      sampleCloudStorage sampleCloudDisk rfl rfl rfl⟩

/-- The arithmetic right shift by 10 bits is the floor of the division by 1024. -/
theorem shiftRight_ten_floor (s : Int) :
    1024 * (s >>> (10 : Nat)) ≤ s ∧ s < 1024 * (s >>> (10 : Nat)) + 1024 := by
  rw [Int.shiftRight_eq_div_pow]
  norm_num
  omega

/-- The metadata loop makes no `CreateIDisk` call. -/
theorem createIDiskSizes_setMetadataCalls (meta : List (String × String))
    (userCred : TokenCredential) : createIDiskSizes (setMetadataCalls meta userCred) = [] := by
  induction meta with
  | nil => simp [setMetadataCalls, createIDiskSizes]
  | cons kv rest ih => simpa [setMetadataCalls, createIDiskSizes] using ih

/-- The update closure of the allocation makes no `CreateIDisk` call. -/
theorem createIDiskSizes_update_closure (disk : SDisk) (iDisk : ICloudDisk) (task : ITask) :
    createIDiskSizes (RequestAllocateDiskOnStorage_func1 disk iDisk task).2 = [] := by
  unfold RequestAllocateDiskOnStorage_func1
  split
  · simp [createIDiskSizes]
  · split
    · simp [createIDiskSizes]
    · simp [createIDiskSizes_setMetadataCalls]

/-- Once the storage facade is obtained and the content holds `size = s`, the
allocation calls `CreateIDisk` exactly once, with size `s >> 10`. -/
theorem createIDiskSizes_allocate (storage : SStorage) (disk : SDisk) (task : ITask)
    (content : JSONParams) (s : Int) (hsize : content.Int ["size"] = (s, none))
    (iCloudStorage : ICloudStorage) (hstorage : storage.GetIStorage = .ok iCloudStorage) :
    createIDiskSizes (RequestAllocateDiskOnStorage storage disk task content).2.2
      = [s >>> (10 : Nat)] := by
  simp only [RequestAllocateDiskOnStorage, hstorage, hsize]
  cases hcreate : iCloudStorage.CreateIDisk disk.GetName (s >>> (10 : Nat)) "" with
  | error err => simp [createIDiskSizes]
  | ok iDisk =>
    have hmeta := createIDiskSizes_update_closure disk iDisk task
    have happend : ∀ l : List Event, createIDiskSizes l = [] →
        ∀ d, createIDiskSizes (l ++ [Event.ScheduleRun d]) = [] := by
      intro l
      induction l with
      | nil => intro _ d; simp [createIDiskSizes]
      | cons ev rest ih =>
        intro h d
        cases ev <;> simp_all [createIDiskSizes]
    cases hupdate : disk.Update with
    | some err => simp [createIDiskSizes, hmeta]
    | none => simp [createIDiskSizes, happend _ hmeta]

/-- C5: when the request content has the integer field `size = s`, every
`CreateIDisk` call of `RequestAllocateDiskOnStorage` has size argument
`s >> 10`, and once the storage facade is obtained there is exactly one such
call; `s >> 10` is the floor of `s / 1024`, so the facade receives 0 for every
`0 <= s < 1024`, in particular for `s = 100`. -/
theorem RequestAllocateDiskOnStorage_size_shift (storage : SStorage) (disk : SDisk)
    (task : ITask) (content : JSONParams) (s : Int)
    (hsize : content.Int ["size"] = (s, none)) :
    (∀ n ∈ createIDiskSizes (RequestAllocateDiskOnStorage storage disk task content).2.2,
        n = s >>> (10 : Nat)) ∧
      (∀ iCloudStorage, storage.GetIStorage = .ok iCloudStorage →
        createIDiskSizes (RequestAllocateDiskOnStorage storage disk task content).2.2
          = [s >>> (10 : Nat)]) ∧
      (1024 * (s >>> (10 : Nat)) ≤ s ∧ s < 1024 * (s >>> (10 : Nat)) + 1024) ∧
      (∀ iCloudStorage, storage.GetIStorage = .ok iCloudStorage → 0 ≤ s → s < 1024 →
        createIDiskSizes (RequestAllocateDiskOnStorage storage disk task content).2.2 = [0]) ∧
      (∀ iCloudStorage, storage.GetIStorage = .ok iCloudStorage → s = 100 →
        createIDiskSizes (RequestAllocateDiskOnStorage storage disk task content).2.2 = [0]) := by
  have hone := createIDiskSizes_allocate storage disk task content s hsize
  have hfloor := shiftRight_ten_floor s
  refine ⟨?_, hone, hfloor, ?_, ?_⟩
  · intro n hn
    cases hstorage : storage.GetIStorage with
    | error err =>
      simp [RequestAllocateDiskOnStorage, hstorage, createIDiskSizes] at hn
    | ok iCloudStorage =>
      rw [hone iCloudStorage hstorage] at hn
      simpa using hn
  · intro iCloudStorage hstorage h0 h1
    rw [hone iCloudStorage hstorage]
    have : s >>> (10 : Nat) = 0 := by omega
    rw [this]
  · intro iCloudStorage hstorage h100
    rw [hone iCloudStorage hstorage]
    have : s >>> (10 : Nat) = 0 := by omega
    rw [this]

/-- C5, run on a request of size 100: the facade receives size 0. -/
theorem RequestAllocateDiskOnStorage_size_shift_witness :
    (contentWithSize 100).Int ["size"] = (100, none) ∧
      createIDiskSizes (RequestAllocateDiskOnStorage
        { StorageType := "gp2", GetIStorage := .ok sampleCloudStorage } sampleDisk sampleTask
        (contentWithSize 100)).2.2 = [0] :=
  ⟨rfl,
    (RequestAllocateDiskOnStorage_size_shift
      { StorageType := "gp2", GetIStorage := .ok sampleCloudStorage } sampleDisk sampleTask
      (contentWithSize 100) 100 rfl).2.2.2.2 sampleCloudStorage rfl rfl⟩

/-- C6: with the storage facade obtained, `RequestResizeDiskOnHost` fetches
the remote disk and calls `Resize` with `s >> 10`, the size
`RequestAllocateDiskOnStorage` hands to `CreateIDisk` for a request of size
`s`; when `Resize` succeeds it returns nil and calls `ScheduleRun` once with a
document whose `disk_size` is `s`; when `GetIDisk` fails (not-found included)
or `Resize` fails it returns that error and does not call `ScheduleRun`. -/
theorem RequestResizeDiskOnHost_converts_and_reports (storage : SStorage) (disk : SDisk)
    (s : Int) (iCloudStorage : ICloudStorage)
    (hstorage : storage.GetIStorage = .ok iCloudStorage) :
    (∀ iDisk, iCloudStorage.GetIDisk disk.GetExternalId = .ok iDisk →
        resizeSizes (RequestResizeDiskOnHost storage disk s).2 = [s >>> (10 : Nat)] ∧
        (∀ (disk2 : SDisk) (task : ITask) (content : JSONParams),
          content.Int ["size"] = (s, none) →
          createIDiskSizes (RequestAllocateDiskOnStorage storage disk2 task content).2.2
            = resizeSizes (RequestResizeDiskOnHost storage disk s).2) ∧
        (iDisk.Resize (s >>> (10 : Nat)) = none →
          (RequestResizeDiskOnHost storage disk s).1 = none ∧
          scheduleRuns (RequestResizeDiskOnHost storage disk s).2
            = [some [("disk_size", JSONValue.JSONInt s)]] ∧
          JSONDict.Get [("disk_size", JSONValue.JSONInt s)] "disk_size"
            = some (JSONValue.JSONInt s)) ∧
        (∀ err, iDisk.Resize (s >>> (10 : Nat)) = some err →
          (RequestResizeDiskOnHost storage disk s).1 = some err ∧
          scheduleRuns (RequestResizeDiskOnHost storage disk s).2 = [])) ∧
      (∀ err, iCloudStorage.GetIDisk disk.GetExternalId = .error err →
        (RequestResizeDiskOnHost storage disk s).1 = some err ∧
        scheduleRuns (RequestResizeDiskOnHost storage disk s).2 = [] ∧
        resizeSizes (RequestResizeDiskOnHost storage disk s).2 = []) := by
  constructor
  · intro iDisk hdisk
    have hsizes : resizeSizes (RequestResizeDiskOnHost storage disk s).2
        = [s >>> (10 : Nat)] := by
      simp only [RequestResizeDiskOnHost, hstorage, hdisk]
      cases iDisk.Resize (s >>> (10 : Nat)) <;> simp [resizeSizes]
    refine ⟨hsizes, ?_, ?_, ?_⟩
    · intro disk2 task content hsize
      rw [hsizes]
      exact createIDiskSizes_allocate storage disk2 task content s hsize iCloudStorage hstorage
    · intro hresize
      simp [RequestResizeDiskOnHost, hstorage, hdisk, hresize, scheduleRuns, JSONDict.Get]
    · intro err hresize
      simp [RequestResizeDiskOnHost, hstorage, hdisk, hresize, scheduleRuns]
  · intro err hdisk
    simp [RequestResizeDiskOnHost, hstorage, hdisk, scheduleRuns, resizeSizes]

/-- C6, run on a resize to 20480 of a disk that exists remotely, and on a
storage whose remote disk is absent. -/
theorem RequestResizeDiskOnHost_converts_and_reports_witness :
    (resizeSizes (RequestResizeDiskOnHost
        { StorageType := "gp2", GetIStorage := .ok sampleCloudStorage } sampleDisk 20480).2
        = [20] ∧
      (RequestResizeDiskOnHost
        { StorageType := "gp2", GetIStorage := .ok sampleCloudStorage } sampleDisk 20480).1
        = none ∧
      scheduleRuns (RequestResizeDiskOnHost
        { StorageType := "gp2", GetIStorage := .ok sampleCloudStorage } sampleDisk 20480).2
        = [some [("disk_size", JSONValue.JSONInt 20480)]]) ∧
    ((RequestResizeDiskOnHost
        { StorageType := "gp2", GetIStorage := .ok emptyCloudStorage } sampleDisk 20480).1
        = some { isErrNotFound := true, text := "not found" } ∧
      scheduleRuns (RequestResizeDiskOnHost
        { StorageType := "gp2", GetIStorage := .ok emptyCloudStorage } sampleDisk 20480).2
        = []) :=
  ⟨⟨((RequestResizeDiskOnHost_converts_and_reports
        { StorageType := "gp2", GetIStorage := .ok sampleCloudStorage } sampleDisk 20480
        sampleCloudStorage rfl).1 sampleCloudDisk rfl).1,
      (((RequestResizeDiskOnHost_converts_and_reports
        { StorageType := "gp2", GetIStorage := .ok sampleCloudStorage } sampleDisk 20480
        sampleCloudStorage rfl).1 sampleCloudDisk rfl).2.2.1 rfl).1,
      (((RequestResizeDiskOnHost_converts_and_reports
        { StorageType := "gp2", GetIStorage := .ok sampleCloudStorage } sampleDisk 20480
        sampleCloudStorage rfl).1 sampleCloudDisk rfl).2.2.1 rfl).2.1⟩,
    ((RequestResizeDiskOnHost_converts_and_reports
        { StorageType := "gp2", GetIStorage := .ok emptyCloudStorage } sampleDisk 20480
        emptyCloudStorage rfl).2 { isErrNotFound := true, text := "not found" } rfl).1,
    ((RequestResizeDiskOnHost_converts_and_reports
        { StorageType := "gp2", GetIStorage := .ok emptyCloudStorage } sampleDisk 20480
        emptyCloudStorage rfl).2 { isErrNotFound := true, text := "not found" } rfl).2.1⟩

/-- C7: `RequestResizeDiskOnHostOnline` is `RequestResizeDiskOnHost`: for every
storage, disk and size, and every behaviour of the facade, it returns the same
error and makes the same calls (facade calls and `ScheduleRun`) in the same
order. -/
theorem RequestResizeDiskOnHostOnline_eq_offline (storage : SStorage) (disk : SDisk)
    (size : Int) :
    (RequestResizeDiskOnHostOnline storage disk size).1
        = (RequestResizeDiskOnHost storage disk size).1 ∧
      (RequestResizeDiskOnHostOnline storage disk size).2
        = (RequestResizeDiskOnHost storage disk size).2 ∧
      scheduleRuns (RequestResizeDiskOnHostOnline storage disk size).2
        = scheduleRuns (RequestResizeDiskOnHost storage disk size).2 :=
  ⟨rfl, rfl, rfl⟩

/-! ### The cached-image registry -/

/-- Searching a mapped list, when the map does not change the search key. -/
theorem find?_map_of_preserved {α : Type} (p : α → Bool) (f : α → α)
    (hp : ∀ a, p (f a) = p a) (l : List α) :
    (l.map f).find? p = (l.find? p).map f := by
  induction l with
  | nil => rfl
  | cons a l ih =>
    simp only [List.map_cons, List.find?_cons, hp]
    cases p a <;> simp [ih]

/-- The row `Register` returns carries the key it was asked for. -/
theorem Register_key (reg : Registry) (c i : String) :
    (Register reg c i).2.StoragecacheId = c ∧ (Register reg c i).2.CachedimageId = i := by
  unfold Register
  cases hfind : reg.lookup c i with
  | none => simp
  | some row =>
    have hkey := List.find?_some hfind
    simpa [SStoragecachedimage.hasKey] using hkey

/-- After `Register` the registry holds the returned row under its key. -/
theorem Register_lookup (reg : Registry) (c i : String) :
    (Register reg c i).1.lookup c i = some (Register reg c i).2 := by
  unfold Register
  cases hfind : reg.lookup c i with
  | none =>
    simp only [Registry.lookup] at hfind ⊢
    rw [List.find?_append, hfind]
    simp [SStoragecachedimage.hasKey]
  | some row => simpa using hfind

/-- A row `Register` finds already stored is returned unchanged, and the
registry is left as it was. -/
theorem Register_existing (reg : Registry) (c i : String) (row : SStoragecachedimage)
    (hrow : reg.lookup c i = some row) : Register reg c i = (reg, row) := by
  simp [Register, hrow]

/-- The effect of `SetStatus` on the row under the key of `scimg`. -/
theorem SetStatus_lookup (reg : Registry) (scimg : SStoragecachedimage) (c i : String)
    (status : CachedImageStatus) (reason : String)
    (hc : scimg.StoragecacheId = c) (hi : scimg.CachedimageId = i) :
    (SetStatus reg scimg status reason).lookup c i
      = (reg.lookup c i).map (fun r => { r with Status := status, StatusMessage := reason }) := by
  subst hc hi
  unfold SetStatus Registry.lookup
  rw [find?_map_of_preserved]
  · cases hfind : reg.find? (fun r => r.hasKey scimg.StoragecacheId scimg.CachedimageId) with
    | none => rfl
    | some row =>
      have hkey := List.find?_some hfind
      simp only [Option.map_some', Option.some.injEq]
      simp only [hkey, if_true]
  · intro a
    by_cases h : a.hasKey scimg.StoragecacheId scimg.CachedimageId = true
    · simp only [h, if_true]
      simpa [SStoragecachedimage.hasKey] using h
    · simp [h]

/-- The effect of `SetExternalId` on the row under the key of `scimg`. -/
theorem SetExternalId_lookup (reg : Registry) (scimg : SStoragecachedimage) (c i : String)
    (externalId : String)
    (hc : scimg.StoragecacheId = c) (hi : scimg.CachedimageId = i) :
    (SetExternalId reg scimg externalId).lookup c i
      = (reg.lookup c i).map (fun r => { r with ExternalId := externalId }) := by
  subst hc hi
  unfold SetExternalId Registry.lookup
  rw [find?_map_of_preserved]
  · cases hfind : reg.find? (fun r => r.hasKey scimg.StoragecacheId scimg.CachedimageId) with
    | none => rfl
    | some row =>
      have hkey := List.find?_some hfind
      simp only [Option.map_some', Option.some.injEq]
      simp only [hkey, if_true]
  · intro a
    by_cases h : a.hasKey scimg.StoragecacheId scimg.CachedimageId = true
    · simp only [h, if_true]
      simpa [SStoragecachedimage.hasKey] using h
    · simp [h]

/-- C8, as stated, fails: on a facade whose snapshot creation, image creation
and download all succeed and whose created image reports the empty id, the
closure returns the download result and the last status written is READY, but
the row ends READY with an empty external id. -/
theorem RequestSaveUploadImageOnHost_ready_with_empty_id_counterexample :
    snapshotDisk.CreateISnapshot ("Snapshot-" ++ "img-1") "PrepareSaveImage"
        = .ok { GetId := "snap-1", Delete := some (Errorf "busy") } ∧
      emptyIdStoragecache.CreateIImage "snap-1" ("Image-" ++ "img-1")
          (sampleTask.GetParams.GetString ["properties", "os_type"]).1 ""
        = .ok { GetId := "", Delete := none } ∧
      emptyIdStoragecache.DownloadImage sampleTask.GetUserCred "img-1" "" "/tmp"
        = .ok [("image_path", JSONValue.JSONString "/tmp")] ∧
      (RequestSaveUploadImageOnHost_func1 "/tmp" snapshotDisk emptyIdStoragecache "img-1"
        sampleTask []).1 = .ok [("image_path", JSONValue.JSONString "/tmp")] ∧
      (statusWrites
        (RequestSaveUploadImageOnHost_func1 "/tmp" snapshotDisk emptyIdStoragecache "img-1"
          sampleTask []).2.2).getLast? = some (CachedImageStatus.READY, "") ∧
      (RequestSaveUploadImageOnHost_func1 "/tmp" snapshotDisk emptyIdStoragecache "img-1"
        sampleTask []).2.1.lookup "cache-1" "img-1" = some
          { StoragecacheId := "cache-1", CachedimageId := "img-1", ExternalId := "",
            Status := CachedImageStatus.READY, StatusMessage := "" } ∧
      ¬ (∃ row,
        (RequestSaveUploadImageOnHost_func1 "/tmp" snapshotDisk emptyIdStoragecache "img-1"
          sampleTask []).2.1.lookup "cache-1" "img-1" = some row ∧
        row.Status = CachedImageStatus.READY ∧ row.ExternalId ≠ "") := by
  refine ⟨rfl, rfl, rfl, rfl, rfl, rfl, ?_⟩
  rintro ⟨row, hrow, -, hid⟩
  have hrow2 : some (SStoragecachedimage.mk "cache-1" "img-1" "" .READY "") = some row := hrow
  cases hrow2
  exact hid rfl

/-- C8, amended: in every run of the `RequestSaveUploadImageOnHost` closure in
which the snapshot creation, the image creation and the download succeed,
whatever `Delete` returns on the created image and on the snapshot, the closure
returns the download result, the last status written is READY with the empty
message, the only external id written is the id of the created image, and the
registry row is READY with that id; the row's external id is non-empty exactly
when the id the created image reports is non-empty. -/
theorem RequestSaveUploadImageOnHost_success_leaves_ready (TempPath : String)
    (iDisk : ICloudDisk) (iStoragecache : ICloudStoragecache) (imageId : String) (task : ITask)
    (reg : Registry) (snapshot : ICloudSnapshot) (iImage : ICloudImage) (result : JSONDict)
    (hsnap : iDisk.CreateISnapshot ("Snapshot-" ++ imageId) "PrepareSaveImage" = .ok snapshot)
    (himage : iStoragecache.CreateIImage snapshot.GetId ("Image-" ++ imageId)
      (task.GetParams.GetString ["properties", "os_type"]).1 "" = .ok iImage)
    (hdown : iStoragecache.DownloadImage task.GetUserCred imageId iImage.GetId TempPath
      = .ok result) :
    (RequestSaveUploadImageOnHost_func1 TempPath iDisk iStoragecache imageId task reg).1
        = .ok result ∧
      (statusWrites
        (RequestSaveUploadImageOnHost_func1 TempPath iDisk iStoragecache imageId task reg).2.2
        ).getLast? = some (CachedImageStatus.READY, "") ∧
      externalIdWrites
        (RequestSaveUploadImageOnHost_func1 TempPath iDisk iStoragecache imageId task reg).2.2
        = [iImage.GetId] ∧
      ∃ row,
        (RequestSaveUploadImageOnHost_func1 TempPath iDisk iStoragecache imageId task reg
          ).2.1.lookup iStoragecache.GetId imageId = some row ∧
        row.Status = CachedImageStatus.READY ∧ row.StatusMessage = "" ∧
        row.ExternalId = iImage.GetId ∧ (row.ExternalId ≠ "" ↔ iImage.GetId ≠ "") := by
  obtain ⟨hc, hi⟩ := Register_key reg iStoragecache.GetId imageId
  have hlook := Register_lookup reg iStoragecache.GetId imageId
  simp only [RequestSaveUploadImageOnHost_func1, hsnap, himage, hdown]
  by_cases hready : (Register reg iStoragecache.GetId imageId).2.Status = CachedImageStatus.READY
  · simp only [hready, ne_eq, not_true_eq_false, if_false]
    refine ⟨trivial, by simp [statusWrites], by simp [externalIdWrites], ?_⟩
    rw [SetStatus_lookup _ _ _ _ _ _ hc hi, SetExternalId_lookup _ _ _ _ _ hc hi, hlook]
    exact ⟨_, rfl, rfl, rfl, rfl, Iff.rfl⟩
  · simp only [hready, ne_eq, not_false_eq_true, if_true]
    refine ⟨trivial, by simp [statusWrites], by simp [externalIdWrites], ?_⟩
    rw [SetStatus_lookup _ _ _ _ _ _ hc hi, SetExternalId_lookup _ _ _ _ _ hc hi,
      SetStatus_lookup _ _ _ _ _ _ hc hi, hlook]
    exact ⟨_, rfl, rfl, rfl, rfl, Iff.rfl⟩

/-- C8 amended, run on a fresh registry with a facade on which both cleanup
deletions fail. -/
theorem RequestSaveUploadImageOnHost_success_leaves_ready_witness :
    (RequestSaveUploadImageOnHost_func1 "/tmp" snapshotDisk sampleStoragecache "img-1"
        sampleTask []).1 = .ok [("image_path", JSONValue.JSONString "/tmp")] ∧
      (statusWrites
        (RequestSaveUploadImageOnHost_func1 "/tmp" snapshotDisk sampleStoragecache "img-1"
          sampleTask []).2.2).getLast? = some (CachedImageStatus.READY, "") ∧
      externalIdWrites
        (RequestSaveUploadImageOnHost_func1 "/tmp" snapshotDisk sampleStoragecache "img-1"
          sampleTask []).2.2 = ["ami-1"] ∧
      ∃ row,
        (RequestSaveUploadImageOnHost_func1 "/tmp" snapshotDisk sampleStoragecache "img-1"
          sampleTask []).2.1.lookup "cache-1" "img-1" = some row ∧
        row.Status = CachedImageStatus.READY ∧ row.StatusMessage = "" ∧
        row.ExternalId = "ami-1" ∧ (row.ExternalId ≠ "" ↔ "ami-1" ≠ "") :=
  RequestSaveUploadImageOnHost_success_leaves_ready "/tmp" snapshotDisk sampleStoragecache
    "img-1" sampleTask [] { GetId := "snap-1", Delete := some (Errorf "busy") }
    { GetId := "ami-1", Delete := some (Errorf "in use") }
    [("image_path", JSONValue.JSONString "/tmp")] rfl rfl rfl

/-- C9: in the `RequestSaveUploadImageOnHost` closure, after a successful
snapshot: if `CreateIImage` fails with `e`, the closure returns `e`, the last
status written is CACHE_FAILED with message `e.Error()`, no external id is
written and `DownloadImage` is not called; if `CreateIImage` succeeds and
`DownloadImage` fails with `e`, the closure returns `e` and the last status
written is CACHE_FAILED with message `e.Error()`; in both cases READY is never
written and the registry row ends CACHE_FAILED with that message. -/
theorem RequestSaveUploadImageOnHost_failure_marks_cache_failed (TempPath : String)
    (iDisk : ICloudDisk) (iStoragecache : ICloudStoragecache) (imageId : String) (task : ITask)
    (reg : Registry) (snapshot : ICloudSnapshot)
    (hsnap : iDisk.CreateISnapshot ("Snapshot-" ++ imageId) "PrepareSaveImage"
      = .ok snapshot) :
    (∀ e, iStoragecache.CreateIImage snapshot.GetId ("Image-" ++ imageId)
          (task.GetParams.GetString ["properties", "os_type"]).1 "" = .error e →
        (RequestSaveUploadImageOnHost_func1 TempPath iDisk iStoragecache imageId task reg).1
          = .error e ∧
        (statusWrites
          (RequestSaveUploadImageOnHost_func1 TempPath iDisk iStoragecache imageId task reg).2.2
          ).getLast? = some (CachedImageStatus.CACHE_FAILED, e.Error) ∧
        externalIdWrites
          (RequestSaveUploadImageOnHost_func1 TempPath iDisk iStoragecache imageId task reg).2.2
          = [] ∧
        (∀ cred img ext path, Event.DownloadImage cred img ext path ∉
          (RequestSaveUploadImageOnHost_func1 TempPath iDisk iStoragecache imageId task reg
            ).2.2) ∧
        (∀ w ∈ statusWrites
          (RequestSaveUploadImageOnHost_func1 TempPath iDisk iStoragecache imageId task reg).2.2,
          w.1 ≠ CachedImageStatus.READY) ∧
        ∃ row,
          (RequestSaveUploadImageOnHost_func1 TempPath iDisk iStoragecache imageId task reg
            ).2.1.lookup iStoragecache.GetId imageId = some row ∧
          row.Status = CachedImageStatus.CACHE_FAILED ∧ row.StatusMessage = e.Error) ∧
      (∀ iImage e, iStoragecache.CreateIImage snapshot.GetId ("Image-" ++ imageId)
          (task.GetParams.GetString ["properties", "os_type"]).1 "" = .ok iImage →
        iStoragecache.DownloadImage task.GetUserCred imageId iImage.GetId TempPath = .error e →
        (RequestSaveUploadImageOnHost_func1 TempPath iDisk iStoragecache imageId task reg).1
          = .error e ∧
        (statusWrites
          (RequestSaveUploadImageOnHost_func1 TempPath iDisk iStoragecache imageId task reg).2.2
          ).getLast? = some (CachedImageStatus.CACHE_FAILED, e.Error) ∧
        (∀ w ∈ statusWrites
          (RequestSaveUploadImageOnHost_func1 TempPath iDisk iStoragecache imageId task reg).2.2,
          w.1 ≠ CachedImageStatus.READY) ∧
        ∃ row,
          (RequestSaveUploadImageOnHost_func1 TempPath iDisk iStoragecache imageId task reg
            ).2.1.lookup iStoragecache.GetId imageId = some row ∧
          row.Status = CachedImageStatus.CACHE_FAILED ∧ row.StatusMessage = e.Error) := by
  obtain ⟨hc, hi⟩ := Register_key reg iStoragecache.GetId imageId
  have hlook := Register_lookup reg iStoragecache.GetId imageId
  constructor
  · intro e himage
    simp only [RequestSaveUploadImageOnHost_func1, hsnap, himage]
    by_cases hready :
        (Register reg iStoragecache.GetId imageId).2.Status = CachedImageStatus.READY
    · simp only [hready, ne_eq, not_true_eq_false, if_false]
      refine ⟨trivial, by simp [statusWrites], by simp [externalIdWrites], by simp,
        by simp [statusWrites], ?_⟩
      rw [SetStatus_lookup _ _ _ _ _ _ hc hi, hlook]
      exact ⟨_, rfl, rfl, rfl⟩
    · simp only [hready, ne_eq, not_false_eq_true, if_true]
      refine ⟨trivial, by simp [statusWrites], by simp [externalIdWrites], by simp,
        by simp [statusWrites], ?_⟩
      rw [SetStatus_lookup _ _ _ _ _ _ hc hi, SetStatus_lookup _ _ _ _ _ _ hc hi, hlook]
      exact ⟨_, rfl, rfl, rfl⟩
  · intro iImage e himage hdown
    simp only [RequestSaveUploadImageOnHost_func1, hsnap, himage, hdown]
    by_cases hready :
        (Register reg iStoragecache.GetId imageId).2.Status = CachedImageStatus.READY
    · simp only [hready, ne_eq, not_true_eq_false, if_false]
      refine ⟨trivial, by simp [statusWrites], by simp [statusWrites], ?_⟩
      rw [SetStatus_lookup _ _ _ _ _ _ hc hi, SetExternalId_lookup _ _ _ _ _ hc hi, hlook]
      exact ⟨_, rfl, rfl, rfl⟩
    · simp only [hready, ne_eq, not_false_eq_true, if_true]
      refine ⟨trivial, by simp [statusWrites], by simp [statusWrites], ?_⟩
      rw [SetStatus_lookup _ _ _ _ _ _ hc hi, SetExternalId_lookup _ _ _ _ _ hc hi,
        SetStatus_lookup _ _ _ _ _ _ hc hi, hlook]
      exact ⟨_, rfl, rfl, rfl⟩

/-- C9, run on a facade whose image creation fails and on one whose download
fails. -/
theorem RequestSaveUploadImageOnHost_failure_marks_cache_failed_witness :
    ((RequestSaveUploadImageOnHost_func1 "/tmp" snapshotDisk failingCreateStoragecache "img-1"
          sampleTask []).1 = .error (Errorf "no quota") ∧
      (statusWrites
        (RequestSaveUploadImageOnHost_func1 "/tmp" snapshotDisk failingCreateStoragecache "img-1"
          sampleTask []).2.2).getLast? = some (CachedImageStatus.CACHE_FAILED, "no quota") ∧
      externalIdWrites
        (RequestSaveUploadImageOnHost_func1 "/tmp" snapshotDisk failingCreateStoragecache "img-1"
          sampleTask []).2.2 = []) ∧
    ((RequestSaveUploadImageOnHost_func1 "/tmp" snapshotDisk failingDownloadStoragecache "img-1"
          sampleTask []).1 = .error (Errorf "export failed") ∧
      (statusWrites
        (RequestSaveUploadImageOnHost_func1 "/tmp" snapshotDisk failingDownloadStoragecache
          "img-1" sampleTask []).2.2).getLast?
        = some (CachedImageStatus.CACHE_FAILED, "export failed")) :=
  ⟨⟨((RequestSaveUploadImageOnHost_failure_marks_cache_failed "/tmp" snapshotDisk
        failingCreateStoragecache "img-1" sampleTask []
        { GetId := "snap-1", Delete := some (Errorf "busy") } rfl).1
        (Errorf "no quota") rfl).1,
      ((RequestSaveUploadImageOnHost_failure_marks_cache_failed "/tmp" snapshotDisk
        failingCreateStoragecache "img-1" sampleTask []
        { GetId := "snap-1", Delete := some (Errorf "busy") } rfl).1
        (Errorf "no quota") rfl).2.1,
      ((RequestSaveUploadImageOnHost_failure_marks_cache_failed "/tmp" snapshotDisk
        failingCreateStoragecache "img-1" sampleTask []
        { GetId := "snap-1", Delete := some (Errorf "busy") } rfl).1
        (Errorf "no quota") rfl).2.2.1⟩,
    ((RequestSaveUploadImageOnHost_failure_marks_cache_failed "/tmp" snapshotDisk
        failingDownloadStoragecache "img-1" sampleTask []
        { GetId := "snap-1", Delete := some (Errorf "busy") } rfl).2
        { GetId := "ami-1", Delete := some (Errorf "in use") } (Errorf "export failed")
        rfl rfl).1,
    ((RequestSaveUploadImageOnHost_failure_marks_cache_failed "/tmp" snapshotDisk
        failingDownloadStoragecache "img-1" sampleTask []
        { GetId := "snap-1", Delete := some (Errorf "busy") } rfl).2
        { GetId := "ami-1", Delete := some (Errorf "in use") } (Errorf "export failed")
        rfl rfl).2.1⟩

/-- The closure of `CheckAndSetCacheImage` never calls `SetStatus`. -/
theorem statusWrites_CheckAndSetCacheImage_func1 (storageCache : SStoragecache) (task : ITask)
    (imageId osArch osType osDist osVersion : String) (isForce : Bool)
    (userCred : TokenCredential) (reg : Registry) :
    statusWrites (CheckAndSetCacheImage_func1 storageCache task imageId osArch osType osDist
      osVersion isForce userCred reg).2.2 = [] := by
  cases hcache : storageCache.GetIStorageCache with
  | error err => simp [CheckAndSetCacheImage_func1, hcache, statusWrites]
  | ok iStorageCache =>
    cases hupload : iStorageCache.UploadImage userCred imageId osArch osType osDist osVersion
        (Register reg storageCache.Id imageId).2.ExternalId isForce with
    | error err => simp [CheckAndSetCacheImage_func1, hcache, hupload, statusWrites]
    | ok extImgId => simp [CheckAndSetCacheImage_func1, hcache, hupload, statusWrites]

/-- C10, as stated, fails: on a fresh registry, with a facade whose
`UploadImage` fails, the closure submitted by `CheckAndSetCacheImage` returns
the upload error and leaves the row in its default state with an empty
message, not CACHE_FAILED; the retry on the registry it left writes no status,
so it does not set CACHING. -/
theorem CheckAndSetCacheImage_upload_failure_counterexample :
    ∃ run, (CheckAndSetCacheImage failingUploadCache sampleTask).background = some run ∧
      (run []).1 = .error (Errorf "upload failed") ∧
      (run []).2.1.lookup "cache-1" "img-1" = some
        { StoragecacheId := "cache-1", CachedimageId := "img-1", ExternalId := "",
          Status := CachedImageStatus.UNREGISTERED, StatusMessage := "" } ∧
      ¬ (∃ row, (run []).2.1.lookup "cache-1" "img-1" = some row ∧
          row.Status = CachedImageStatus.CACHE_FAILED ∧ row.StatusMessage ≠ "") ∧
      (run (run []).2.1).1 = .error (Errorf "upload failed") ∧
      (CachedImageStatus.CACHING, "") ∉ statusWrites (run (run []).2.1).2.2 ∧
      statusWrites (run (run []).2.1).2.2 = [] := by
  refine ⟨_, rfl, rfl, rfl, ?_, rfl, ?_, rfl⟩
  · rintro ⟨row, hrow, hstatus, -⟩
    have hrow2 : some (SStoragecachedimage.mk "cache-1" "img-1" "" .UNREGISTERED "") = some row :=
      hrow
    cases hrow2
    cases hstatus
  · rw [statusWrites_CheckAndSetCacheImage_func1]
    exact List.not_mem_nil _

/-- C10, amended: when `UploadImage` fails with `e`, the closure of
`CheckAndSetCacheImage` returns `e` and writes neither a status nor an external
id; the registry is left as `Register` returned it, so a row that existed
before is unchanged (status and message included); and a retry on the registry
it left, whatever the facade then does, writes no status either. -/
theorem CheckAndSetCacheImage_upload_failure_writes_no_status (storageCache : SStoragecache)
    (task : ITask) (imageId osArch osType osDist osVersion : String) (isForce : Bool)
    (userCred : TokenCredential) (reg : Registry) (iStorageCache : ICloudStoragecache)
    (e : GoError)
    (hcache : storageCache.GetIStorageCache = .ok iStorageCache)
    (hupload : iStorageCache.UploadImage userCred imageId osArch osType osDist osVersion
      (Register reg storageCache.Id imageId).2.ExternalId isForce = .error e) :
    (CheckAndSetCacheImage_func1 storageCache task imageId osArch osType osDist osVersion
        isForce userCred reg).1 = .error e ∧
      statusWrites (CheckAndSetCacheImage_func1 storageCache task imageId osArch osType osDist
        osVersion isForce userCred reg).2.2 = [] ∧
      externalIdWrites (CheckAndSetCacheImage_func1 storageCache task imageId osArch osType
        osDist osVersion isForce userCred reg).2.2 = [] ∧
      (CheckAndSetCacheImage_func1 storageCache task imageId osArch osType osDist osVersion
        isForce userCred reg).2.1 = (Register reg storageCache.Id imageId).1 ∧
      (CheckAndSetCacheImage_func1 storageCache task imageId osArch osType osDist osVersion
        isForce userCred reg).2.1.lookup storageCache.Id imageId
        = some (Register reg storageCache.Id imageId).2 ∧
      (∀ row, reg.lookup storageCache.Id imageId = some row →
        (CheckAndSetCacheImage_func1 storageCache task imageId osArch osType osDist osVersion
          isForce userCred reg).2.1 = reg ∧
        (CheckAndSetCacheImage_func1 storageCache task imageId osArch osType osDist osVersion
          isForce userCred reg).2.1.lookup storageCache.Id imageId = some row) ∧
      (∀ (storageCache2 : SStoragecache) (task2 : ITask)
          (osArch2 osType2 osDist2 osVersion2 : String) (isForce2 : Bool)
          (userCred2 : TokenCredential),
        statusWrites (CheckAndSetCacheImage_func1 storageCache2 task2 imageId osArch2 osType2
          osDist2 osVersion2 isForce2 userCred2
          (CheckAndSetCacheImage_func1 storageCache task imageId osArch osType osDist osVersion
            isForce userCred reg).2.1).2.2 = []) := by
  have hrun : CheckAndSetCacheImage_func1 storageCache task imageId osArch osType osDist
      osVersion isForce userCred reg
      = (.error e, (Register reg storageCache.Id imageId).1,
          [.LockRawObject "cachedimages" (storageCache.Id ++ "-" ++ imageId),
            .Register task.GetUserCred storageCache.Id imageId, .GetIStorageCache,
            .UploadImage userCred imageId osArch osType osDist osVersion
              (Register reg storageCache.Id imageId).2.ExternalId isForce,
            .ReleaseRawObject "cachedimages" (storageCache.Id ++ "-" ++ imageId)]) := by
    simp [CheckAndSetCacheImage_func1, hcache, hupload]
  refine ⟨by rw [hrun], statusWrites_CheckAndSetCacheImage_func1 _ _ _ _ _ _ _ _ _ _,
    by rw [hrun]; simp [externalIdWrites], by rw [hrun], ?_, ?_, ?_⟩
  · rw [hrun]
    exact Register_lookup reg storageCache.Id imageId
  · intro row hrow
    rw [hrun, Register_existing reg _ _ row hrow]
    exact ⟨rfl, hrow⟩
  · intro storageCache2 task2 osArch2 osType2 osDist2 osVersion2 isForce2 userCred2
    exact statusWrites_CheckAndSetCacheImage_func1 _ _ _ _ _ _ _ _ _ _

/-- C10 amended, run on a registry whose row is READY with external id
`ami-0`: the failing upload leaves the row as it was. -/
theorem CheckAndSetCacheImage_upload_failure_writes_no_status_witness :
    (CheckAndSetCacheImage_func1 failingUploadCache sampleTask "img-1" "" "" "" "" false "admin"
        [{ StoragecacheId := "cache-1", CachedimageId := "img-1", ExternalId := "ami-0",
            Status := CachedImageStatus.READY, StatusMessage := "" }]).1
        = .error (Errorf "upload failed") ∧
      statusWrites (CheckAndSetCacheImage_func1 failingUploadCache sampleTask "img-1" "" "" ""
        "" false "admin"
        [{ StoragecacheId := "cache-1", CachedimageId := "img-1", ExternalId := "ami-0",
            Status := CachedImageStatus.READY, StatusMessage := "" }]).2.2 = [] ∧
      (CheckAndSetCacheImage_func1 failingUploadCache sampleTask "img-1" "" "" "" "" false "admin"
        [{ StoragecacheId := "cache-1", CachedimageId := "img-1", ExternalId := "ami-0",
            Status := CachedImageStatus.READY, StatusMessage := "" }]).2.1
        = [{ StoragecacheId := "cache-1", CachedimageId := "img-1", ExternalId := "ami-0",
              Status := CachedImageStatus.READY, StatusMessage := "" }] :=
  ⟨(CheckAndSetCacheImage_upload_failure_writes_no_status failingUploadCache sampleTask "img-1"
      "" "" "" "" false "admin"
      [{ StoragecacheId := "cache-1", CachedimageId := "img-1", ExternalId := "ami-0",
          Status := CachedImageStatus.READY, StatusMessage := "" }]
      { sampleStoragecache with
        UploadImage := fun _ _ _ _ _ _ _ _ => .error (Errorf "upload failed") }
      (Errorf "upload failed") rfl rfl).1,
    (CheckAndSetCacheImage_upload_failure_writes_no_status failingUploadCache sampleTask "img-1"
      "" "" "" "" false "admin"
      [{ StoragecacheId := "cache-1", CachedimageId := "img-1", ExternalId := "ami-0",
          Status := CachedImageStatus.READY, StatusMessage := "" }]
      { sampleStoragecache with
        UploadImage := fun _ _ _ _ _ _ _ _ => .error (Errorf "upload failed") }
      (Errorf "upload failed") rfl rfl).2.1,
    (CheckAndSetCacheImage_upload_failure_writes_no_status failingUploadCache sampleTask "img-1"
      "" "" "" "" false "admin"
      [{ StoragecacheId := "cache-1", CachedimageId := "img-1", ExternalId := "ami-0",
          Status := CachedImageStatus.READY, StatusMessage := "" }]
      { sampleStoragecache with
        UploadImage := fun _ _ _ _ _ _ _ _ => .error (Errorf "upload failed") }
      (Errorf "upload failed") rfl rfl).2.2.2.1⟩

/-- C11: in every run of the `CheckAndSetCacheImage` closure (success, failing
`GetIStorageCache`, failing `UploadImage`) the trace is the call
`LockRawObject("cachedimages", storageCache.Id + "-" + imageId)`, then calls
that neither acquire nor release a lock and that include `Register` and every
facade call, then `ReleaseRawObject` with the same table and key; so the lock
is acquired exactly once, released exactly once, and no other key is taken. -/
theorem CheckAndSetCacheImage_single_key_lock (storageCache : SStoragecache) (task : ITask)
    (imageId osArch osType osDist osVersion : String) (isForce : Bool)
    (userCred : TokenCredential) (reg : Registry) :
    (∃ middle,
        (CheckAndSetCacheImage_func1 storageCache task imageId osArch osType osDist osVersion
          isForce userCred reg).2.2
          = Event.LockRawObject "cachedimages" (storageCache.Id ++ "-" ++ imageId) :: middle
            ++ [Event.ReleaseRawObject "cachedimages" (storageCache.Id ++ "-" ++ imageId)] ∧
        lockCalls middle = [] ∧ releaseCalls middle = [] ∧
        Event.Register task.GetUserCred storageCache.Id imageId ∈ middle ∧
        (∀ ev ∈ (CheckAndSetCacheImage_func1 storageCache task imageId osArch osType osDist
            osVersion isForce userCred reg).2.2, ev.isFacadeCall = true → ev ∈ middle)) ∧
      lockCalls (CheckAndSetCacheImage_func1 storageCache task imageId osArch osType osDist
        osVersion isForce userCred reg).2.2
        = [("cachedimages", storageCache.Id ++ "-" ++ imageId)] ∧
      releaseCalls (CheckAndSetCacheImage_func1 storageCache task imageId osArch osType osDist
        osVersion isForce userCred reg).2.2
        = [("cachedimages", storageCache.Id ++ "-" ++ imageId)] := by
  cases hcache : storageCache.GetIStorageCache with
  | error err =>
    refine ⟨⟨[.Register task.GetUserCred storageCache.Id imageId, .GetIStorageCache], ?_, rfl,
      rfl, by simp, ?_⟩, ?_, ?_⟩
    · simp [CheckAndSetCacheImage_func1, hcache]
    · simp [CheckAndSetCacheImage_func1, hcache, Event.isFacadeCall]
    · simp [CheckAndSetCacheImage_func1, hcache, lockCalls]
    · simp [CheckAndSetCacheImage_func1, hcache, releaseCalls]
  | ok iStorageCache =>
    cases hupload : iStorageCache.UploadImage userCred imageId osArch osType osDist osVersion
        (Register reg storageCache.Id imageId).2.ExternalId isForce with
    | error err =>
      refine ⟨⟨[.Register task.GetUserCred storageCache.Id imageId, .GetIStorageCache,
        .UploadImage userCred imageId osArch osType osDist osVersion
          (Register reg storageCache.Id imageId).2.ExternalId isForce], ?_, rfl, rfl, by simp,
        ?_⟩, ?_, ?_⟩
      · simp [CheckAndSetCacheImage_func1, hcache, hupload]
      · simp [CheckAndSetCacheImage_func1, hcache, hupload, Event.isFacadeCall]
      · simp [CheckAndSetCacheImage_func1, hcache, hupload, lockCalls]
      · simp [CheckAndSetCacheImage_func1, hcache, hupload, releaseCalls]
    | ok extImgId =>
      refine ⟨⟨[.Register task.GetUserCred storageCache.Id imageId, .GetIStorageCache,
        .UploadImage userCred imageId osArch osType osDist osVersion
          (Register reg storageCache.Id imageId).2.ExternalId isForce,
        .SetExternalId extImgId], ?_, rfl, rfl, by simp, ?_⟩, ?_, ?_⟩
      · simp [CheckAndSetCacheImage_func1, hcache, hupload]
      · simp [CheckAndSetCacheImage_func1, hcache, hupload, Event.isFacadeCall]
      · simp [CheckAndSetCacheImage_func1, hcache, hupload, lockCalls]
      · simp [CheckAndSetCacheImage_func1, hcache, hupload, releaseCalls]

/-- The result of `CheckAndSetCacheImage` when `image_id` is read. -/
theorem CheckAndSetCacheImage_of_image_id (storageCache : SStoragecache) (task : ITask)
    (imageId : String) (hid : task.GetParams.GetString ["image_id"] = (imageId, none)) :
    CheckAndSetCacheImage storageCache task =
      { err := none, trace := [.LocalTaskRun],
        background := some (CheckAndSetCacheImage_func1 storageCache task imageId
          (task.GetParams.GetString ["os_arch"]).1 (task.GetParams.GetString ["os_type"]).1
          (task.GetParams.GetString ["os_distribution"]).1
          (task.GetParams.GetString ["os_version"]).1
          (task.GetParams.QueryBoolean "is_force" false) task.GetUserCred) } := by
  simp [CheckAndSetCacheImage, hid]

/-- The result of `CheckAndSetCacheImage` when reading `image_id` fails. -/
theorem CheckAndSetCacheImage_of_error (storageCache : SStoragecache) (task : ITask)
    (value : String) (err : GoError)
    (hid : task.GetParams.GetString ["image_id"] = (value, some err)) :
    CheckAndSetCacheImage storageCache task =
      { err := some err, trace := [], background := none } := by
  simp [CheckAndSetCacheImage, hid]

/-- C12: when reading the string field `image_id` of the task parameters fails,
`CheckAndSetCacheImage` returns that error, makes no call at all (no
`LocalTaskRun`, no lock, no `Register`, no facade call) and submits no closure;
when `image_id` is read, it returns nil and submits the closure whatever the
reads of `os_arch`, `os_type`, `os_distribution`, `os_version` and `is_force`
give. -/
theorem CheckAndSetCacheImage_missing_image_id (storageCache : SStoragecache) (task : ITask) :
    (∀ err, (task.GetParams.GetString ["image_id"]).2 = some err →
        (CheckAndSetCacheImage storageCache task).err = some err ∧
        (CheckAndSetCacheImage storageCache task).err ≠ none ∧
        (CheckAndSetCacheImage storageCache task).trace = [] ∧
        (CheckAndSetCacheImage storageCache task).background.isNone = true) ∧
      ((task.GetParams.GetString ["image_id"]).2 = none →
        (CheckAndSetCacheImage storageCache task).err = none ∧
        (CheckAndSetCacheImage storageCache task).trace = [Event.LocalTaskRun] ∧
        (CheckAndSetCacheImage storageCache task).background.isSome = true) := by
  constructor
  · intro err herr
    rcases hp : task.GetParams.GetString ["image_id"] with ⟨x, _ | e⟩
    · rw [hp] at herr
      cases herr
    · rw [hp] at herr
      simp only [Option.some.injEq] at herr
      subst herr
      rw [CheckAndSetCacheImage_of_error storageCache task x e hp]
      simp
  · intro hnone
    rcases hp : task.GetParams.GetString ["image_id"] with ⟨x, _ | e⟩
    · rw [CheckAndSetCacheImage_of_image_id storageCache task x hp]
      simp
    · rw [hp] at hnone
      cases hnone

/-- C12, run on a task without parameters, and on a task that holds `image_id`
and none of the optional fields. -/
theorem CheckAndSetCacheImage_missing_image_id_witness :
    ((CheckAndSetCacheImage sampleCache emptyTask).err = some (Errorf "key not found") ∧
      (CheckAndSetCacheImage sampleCache emptyTask).err ≠ none ∧
      (CheckAndSetCacheImage sampleCache emptyTask).trace = [] ∧
      (CheckAndSetCacheImage sampleCache emptyTask).background.isNone = true) ∧
    ((CheckAndSetCacheImage sampleCache sampleTask).err = none ∧
      (CheckAndSetCacheImage sampleCache sampleTask).trace = [Event.LocalTaskRun] ∧
      (CheckAndSetCacheImage sampleCache sampleTask).background.isSome = true) :=
  ⟨(CheckAndSetCacheImage_missing_image_id sampleCache emptyTask).1 (Errorf "key not found") rfl,
    (CheckAndSetCacheImage_missing_image_id sampleCache sampleTask).2 rfl⟩

/-- The documents of a concatenated trace. -/
theorem scheduleRuns_append (l₁ l₂ : List Event) :
    scheduleRuns (l₁ ++ l₂) = scheduleRuns l₁ ++ scheduleRuns l₂ := by
  induction l₁ with
  | nil => rfl
  | cons ev rest ih => cases ev <;> simp [scheduleRuns, ih]

/-- The metadata loop does not call `ScheduleRun`. -/
theorem scheduleRuns_setMetadataCalls (meta : List (String × String))
    (userCred : TokenCredential) : scheduleRuns (setMetadataCalls meta userCred) = [] := by
  induction meta with
  | nil => simp [setMetadataCalls, scheduleRuns]
  | cons kv rest ih => simpa [setMetadataCalls, scheduleRuns] using ih

/-- The update closure of the allocation sets the external id and does not
call `ScheduleRun`, whatever the metadata calls return. -/
theorem RequestAllocateDiskOnStorage_func1_spec (disk : SDisk) (iDisk : ICloudDisk)
    (task : ITask) :
    (RequestAllocateDiskOnStorage_func1 disk iDisk task).1.ExternalId = iDisk.GetGlobalId ∧
      scheduleRuns (RequestAllocateDiskOnStorage_func1 disk iDisk task).2 = [] := by
  unfold RequestAllocateDiskOnStorage_func1
  split
  · simp [scheduleRuns]
  · split
    · simp [scheduleRuns]
    · simp [scheduleRuns_setMetadataCalls]

/-- The result document built by a successful allocation. -/
theorem allocate_result_document (size : Int) (format : String) :
    (NewDict.Add (.JSONInt size) "disk_size").Add (.JSONString format) "disk_format"
      = [("disk_size", JSONValue.JSONInt size), ("disk_format", JSONValue.JSONString format)] := by
  simp [NewDict, JSONDict.Add]

/-- C13: when `CreateIDisk` and the record update succeed,
`RequestAllocateDiskOnStorage` returns nil, leaves the disk's `ExternalId`
equal to the remote disk's global id, and calls `ScheduleRun` exactly once,
with a document whose `disk_size` is `GetDiskSizeMB()` and whose `disk_format`
is `GetDiskFormat()`; the metadata (absent, failing to unmarshal, or with
failing `SetMetadata` calls) has no influence on this. -/
theorem RequestAllocateDiskOnStorage_success_records_identity (storage : SStorage)
    (disk : SDisk) (task : ITask) (content : JSONParams) (s : Int)
    (iCloudStorage : ICloudStorage) (iDisk : ICloudDisk)
    (hstorage : storage.GetIStorage = .ok iCloudStorage)
    (hsize : content.Int ["size"] = (s, none))
    (hcreate : iCloudStorage.CreateIDisk disk.GetName (s >>> (10 : Nat)) "" = .ok iDisk)
    (hupdate : disk.Update = none) :
    (RequestAllocateDiskOnStorage storage disk task content).1 = none ∧
      (RequestAllocateDiskOnStorage storage disk task content).2.1.ExternalId
        = iDisk.GetGlobalId ∧
      scheduleRuns (RequestAllocateDiskOnStorage storage disk task content).2.2
        = [some [("disk_size", JSONValue.JSONInt iDisk.GetDiskSizeMB),
            ("disk_format", JSONValue.JSONString iDisk.GetDiskFormat)]] ∧
      JSONDict.Get [("disk_size", JSONValue.JSONInt iDisk.GetDiskSizeMB),
          ("disk_format", JSONValue.JSONString iDisk.GetDiskFormat)] "disk_size"
        = some (JSONValue.JSONInt iDisk.GetDiskSizeMB) ∧
      JSONDict.Get [("disk_size", JSONValue.JSONInt iDisk.GetDiskSizeMB),
          ("disk_format", JSONValue.JSONString iDisk.GetDiskFormat)] "disk_format"
        = some (JSONValue.JSONString iDisk.GetDiskFormat) := by
  obtain ⟨hext, hruns⟩ := RequestAllocateDiskOnStorage_func1_spec disk iDisk task
  have hrun : RequestAllocateDiskOnStorage storage disk task content
      = (none, (RequestAllocateDiskOnStorage_func1 disk iDisk task).1,
          ([.StorageGetIStorage, .CreateIDisk disk.GetName (s >>> (10 : Nat)) "", .TableUpdate]
            ++ (RequestAllocateDiskOnStorage_func1 disk iDisk task).2)
          ++ [.ScheduleRun (some [("disk_size", JSONValue.JSONInt iDisk.GetDiskSizeMB),
              ("disk_format", JSONValue.JSONString iDisk.GetDiskFormat)])]) := by
    simp only [RequestAllocateDiskOnStorage, hstorage, hsize, hcreate, hupdate,
      allocate_result_document]
  rw [hrun]
  refine ⟨rfl, hext, ?_, ?_, ?_⟩
  · simp only [scheduleRuns_append, hruns]
    simp [scheduleRuns]
  · simp [JSONDict.Get]
  · simp [JSONDict.Get]

/-- C13, run on a remote disk whose metadata cannot be unmarshalled. -/
theorem RequestAllocateDiskOnStorage_success_records_identity_witness :
    (RequestAllocateDiskOnStorage
        { StorageType := "gp2", GetIStorage := .ok
            { sampleCloudStorage with CreateIDisk := fun _ _ _ => .ok badMetadataDisk } }
        { sampleDisk with ExternalId := "" } sampleTask (contentWithSize 10240)).1 = none ∧
      (RequestAllocateDiskOnStorage
        { StorageType := "gp2", GetIStorage := .ok
            { sampleCloudStorage with CreateIDisk := fun _ _ _ => .ok badMetadataDisk } }
        { sampleDisk with ExternalId := "" } sampleTask (contentWithSize 10240)).2.1.ExternalId
        = "vol-1" ∧
      scheduleRuns (RequestAllocateDiskOnStorage
        { StorageType := "gp2", GetIStorage := .ok
            { sampleCloudStorage with CreateIDisk := fun _ _ _ => .ok badMetadataDisk } }
        { sampleDisk with ExternalId := "" } sampleTask (contentWithSize 10240)).2.2
        = [some [("disk_size", JSONValue.JSONInt 10240),
            ("disk_format", JSONValue.JSONString "raw")]] :=
  ⟨(RequestAllocateDiskOnStorage_success_records_identity
      { StorageType := "gp2", GetIStorage := .ok
          { sampleCloudStorage with CreateIDisk := fun _ _ _ => .ok badMetadataDisk } }
      { sampleDisk with ExternalId := "" } sampleTask (contentWithSize 10240) 10240
      { sampleCloudStorage with CreateIDisk := fun _ _ _ => .ok badMetadataDisk }
      badMetadataDisk rfl rfl rfl rfl).1,
    (RequestAllocateDiskOnStorage_success_records_identity
      { StorageType := "gp2", GetIStorage := .ok
          { sampleCloudStorage with CreateIDisk := fun _ _ _ => .ok badMetadataDisk } }
      { sampleDisk with ExternalId := "" } sampleTask (contentWithSize 10240) 10240
      { sampleCloudStorage with CreateIDisk := fun _ _ _ => .ok badMetadataDisk }
      badMetadataDisk rfl rfl rfl rfl).2.1,
    (RequestAllocateDiskOnStorage_success_records_identity
      { StorageType := "gp2", GetIStorage := .ok
          { sampleCloudStorage with CreateIDisk := fun _ _ _ => .ok badMetadataDisk } }
      { sampleDisk with ExternalId := "" } sampleTask (contentWithSize 10240) 10240
      { sampleCloudStorage with CreateIDisk := fun _ _ _ => .ok badMetadataDisk }
      badMetadataDisk rfl rfl rfl rfl).2.2.1⟩

/-- C14: when `image_id` is read and `UploadImage` returns `x` without error,
the closure submitted by `CheckAndSetCacheImage` returns a document whose
`image_id` is `x` and sets the registered row's external id to `x`;
`UploadImage` is called with the external id the row had when `Register`
returned it (the stored one for an existing row, empty for a new row) and
with `QueryBoolean(params, "is_force", false)`, which is false when the lookup
falls back to its default. -/
theorem CheckAndSetCacheImage_success_stores_external_id (storageCache : SStoragecache)
    (task : ITask) (imageId : String) (reg : Registry) (iStorageCache : ICloudStoragecache)
    (x : String)
    (hid : task.GetParams.GetString ["image_id"] = (imageId, none))
    (hcache : storageCache.GetIStorageCache = .ok iStorageCache)
    (hupload : iStorageCache.UploadImage task.GetUserCred imageId
      (task.GetParams.GetString ["os_arch"]).1 (task.GetParams.GetString ["os_type"]).1
      (task.GetParams.GetString ["os_distribution"]).1
      (task.GetParams.GetString ["os_version"]).1
      (Register reg storageCache.Id imageId).2.ExternalId
      (task.GetParams.QueryBoolean "is_force" false) = .ok x) :
    ∃ run, (CheckAndSetCacheImage storageCache task).background = some run ∧
      (run reg).1 = .ok [("image_id", JSONValue.JSONString x)] ∧
      JSONDict.Get [("image_id", JSONValue.JSONString x)] "image_id"
        = some (JSONValue.JSONString x) ∧
      externalIdWrites (run reg).2.2 = [x] ∧
      (∃ row, (run reg).2.1.lookup storageCache.Id imageId = some row ∧ row.ExternalId = x) ∧
      Event.UploadImage task.GetUserCred imageId
        (task.GetParams.GetString ["os_arch"]).1 (task.GetParams.GetString ["os_type"]).1
        (task.GetParams.GetString ["os_distribution"]).1
        (task.GetParams.GetString ["os_version"]).1
        (Register reg storageCache.Id imageId).2.ExternalId
        (task.GetParams.QueryBoolean "is_force" false) ∈ (run reg).2.2 ∧
      (∀ row, reg.lookup storageCache.Id imageId = some row →
        (Register reg storageCache.Id imageId).2.ExternalId = row.ExternalId) ∧
      (reg.lookup storageCache.Id imageId = none →
        (Register reg storageCache.Id imageId).2.ExternalId = "") ∧
      ((∀ dflt, task.GetParams.QueryBoolean "is_force" dflt = dflt) →
        Event.UploadImage task.GetUserCred imageId
          (task.GetParams.GetString ["os_arch"]).1 (task.GetParams.GetString ["os_type"]).1
          (task.GetParams.GetString ["os_distribution"]).1
          (task.GetParams.GetString ["os_version"]).1
          (Register reg storageCache.Id imageId).2.ExternalId false ∈ (run reg).2.2) := by
  obtain ⟨hc, hi⟩ := Register_key reg storageCache.Id imageId
  have hlook := Register_lookup reg storageCache.Id imageId
  refine ⟨_, by rw [CheckAndSetCacheImage_of_image_id storageCache task imageId hid], ?_⟩
  have hrun : CheckAndSetCacheImage_func1 storageCache task imageId
      (task.GetParams.GetString ["os_arch"]).1 (task.GetParams.GetString ["os_type"]).1
      (task.GetParams.GetString ["os_distribution"]).1
      (task.GetParams.GetString ["os_version"]).1
      (task.GetParams.QueryBoolean "is_force" false) task.GetUserCred reg
      = (.ok [("image_id", JSONValue.JSONString x)],
          SetExternalId (Register reg storageCache.Id imageId).1
            (Register reg storageCache.Id imageId).2 x,
          [.LockRawObject "cachedimages" (storageCache.Id ++ "-" ++ imageId),
            .Register task.GetUserCred storageCache.Id imageId, .GetIStorageCache,
            .UploadImage task.GetUserCred imageId
              (task.GetParams.GetString ["os_arch"]).1 (task.GetParams.GetString ["os_type"]).1
              (task.GetParams.GetString ["os_distribution"]).1
              (task.GetParams.GetString ["os_version"]).1
              (Register reg storageCache.Id imageId).2.ExternalId
              (task.GetParams.QueryBoolean "is_force" false),
            .SetExternalId x,
            .ReleaseRawObject "cachedimages" (storageCache.Id ++ "-" ++ imageId)]) := by
    simp [CheckAndSetCacheImage_func1, hcache, hupload, NewDict, JSONDict.Add]
  rw [hrun]
  refine ⟨rfl, by simp [JSONDict.Get], by simp [externalIdWrites], ?_, by simp, ?_, ?_, ?_⟩
  · rw [SetExternalId_lookup _ _ _ _ _ hc hi, hlook]
    exact ⟨_, rfl, rfl⟩
  · intro row hrow
    rw [Register_existing reg _ _ row hrow]
  · intro hnone
    simp [Register, hnone]
  · intro hdefault
    have hflag := hdefault false
    simp [hflag]

/-- C14, run on a registry whose row already holds external id `ami-0`:
`UploadImage` receives `ami-0` and the force flag false, and the closure stores
and returns `ami-2`. -/
theorem CheckAndSetCacheImage_success_stores_external_id_witness :
    ∃ run, (CheckAndSetCacheImage sampleCache sampleTask).background = some run ∧
      (run [{ StoragecacheId := "cache-1", CachedimageId := "img-1", ExternalId := "ami-0",
              Status := CachedImageStatus.READY, StatusMessage := "" }]).1
        = .ok [("image_id", JSONValue.JSONString "ami-2")] ∧
      externalIdWrites
        (run [{ StoragecacheId := "cache-1", CachedimageId := "img-1", ExternalId := "ami-0",
                Status := CachedImageStatus.READY, StatusMessage := "" }]).2.2 = ["ami-2"] ∧
      Event.UploadImage "admin" "img-1" "" "" "" "" "ami-0" false ∈
        (run [{ StoragecacheId := "cache-1", CachedimageId := "img-1", ExternalId := "ami-0",
                Status := CachedImageStatus.READY, StatusMessage := "" }]).2.2 :=
  (CheckAndSetCacheImage_success_stores_external_id sampleCache sampleTask "img-1"
    [{ StoragecacheId := "cache-1", CachedimageId := "img-1", ExternalId := "ami-0",
        Status := CachedImageStatus.READY, StatusMessage := "" }]
    sampleStoragecache "ami-2" rfl rfl rfl).elim
    (fun run h => ⟨run, h.1, h.2.1, h.2.2.2.1, h.2.2.2.2.2.1⟩)

/-- The hand-offs of a concatenated trace. -/
theorem taskHandoffs_append (l₁ l₂ : List Event) :
    taskHandoffs (l₁ ++ l₂) = taskHandoffs l₁ + taskHandoffs l₂ := by
  induction l₁ with
  | nil => simp [taskHandoffs]
  | cons ev rest ih => cases ev <;> simp [taskHandoffs, ih] <;> omega

/-- The metadata loop does not hand the task off. -/
theorem taskHandoffs_setMetadataCalls (meta : List (String × String))
    (userCred : TokenCredential) : taskHandoffs (setMetadataCalls meta userCred) = 0 := by
  induction meta with
  | nil => simp [setMetadataCalls, taskHandoffs]
  | cons kv rest ih => simpa [setMetadataCalls, taskHandoffs] using ih

/-- The update closure of the allocation does not hand the task off. -/
theorem taskHandoffs_update_closure (disk : SDisk) (iDisk : ICloudDisk) (task : ITask) :
    taskHandoffs (RequestAllocateDiskOnStorage_func1 disk iDisk task).2 = 0 := by
  unfold RequestAllocateDiskOnStorage_func1
  split
  · simp [taskHandoffs]
  · split
    · simp [taskHandoffs]
    · simp [taskHandoffs_setMetadataCalls]

/-- The allocation hands the task off once when it returns nil and never when
it returns an error. -/
theorem taskHandoffs_allocate (storage : SStorage) (disk : SDisk) (task : ITask)
    (content : JSONParams) :
    taskHandoffs (RequestAllocateDiskOnStorage storage disk task content).2.2
      = if (RequestAllocateDiskOnStorage storage disk task content).1 = none then 1 else 0 := by
  cases hstorage : storage.GetIStorage with
  | error err => simp [RequestAllocateDiskOnStorage, hstorage, taskHandoffs]
  | ok iCloudStorage =>
    rcases hsize : content.Int ["size"] with ⟨s, _ | e⟩
    · cases hcreate : iCloudStorage.CreateIDisk disk.GetName (s >>> (10 : Nat)) "" with
      | error err => simp [RequestAllocateDiskOnStorage, hstorage, hsize, hcreate, taskHandoffs]
      | ok iDisk =>
        have hclosure := taskHandoffs_update_closure disk iDisk task
        cases hupdate : disk.Update with
        | some err =>
          simp [RequestAllocateDiskOnStorage, hstorage, hsize, hcreate, hupdate, taskHandoffs,
            hclosure]
        | none =>
          simp [RequestAllocateDiskOnStorage, hstorage, hsize, hcreate, hupdate, taskHandoffs,
            taskHandoffs_append, hclosure]
    · simp [RequestAllocateDiskOnStorage, hstorage, hsize, taskHandoffs]

/-- C15: each of the seven driver operations that take a task calls
`task.ScheduleRun` or `taskman.LocalTaskRun` exactly once in an invocation that
returns nil and not at all in one that returns an error, for every behaviour
of the facade and of the model layer. -/
theorem driver_hands_task_off_once_iff_nil (TempPath : String) (storageCache : SStoragecache)
    (storage : SStorage) (disk : SDisk) (imageId : String) (task : ITask)
    (content : JSONParams) (size : Int) :
    taskHandoffs (CheckAndSetCacheImage storageCache task).trace
        = (if (CheckAndSetCacheImage storageCache task).err = none then 1 else 0) ∧
      taskHandoffs RequestPrepareSaveDiskOnHost.2
        = (if RequestPrepareSaveDiskOnHost.1 = none then 1 else 0) ∧
      taskHandoffs (RequestSaveUploadImageOnHost TempPath disk imageId task).trace
        = (if (RequestSaveUploadImageOnHost TempPath disk imageId task).err = none then 1
          else 0) ∧
      taskHandoffs (RequestAllocateDiskOnStorage storage disk task content).2.2
        = (if (RequestAllocateDiskOnStorage storage disk task content).1 = none then 1
          else 0) ∧
      taskHandoffs (RequestDeallocateDiskOnHost storage disk).2
        = (if (RequestDeallocateDiskOnHost storage disk).1 = none then 1 else 0) ∧
      taskHandoffs (RequestResizeDiskOnHost storage disk size).2
        = (if (RequestResizeDiskOnHost storage disk size).1 = none then 1 else 0) ∧
      taskHandoffs (RequestResizeDiskOnHostOnline storage disk size).2
        = (if (RequestResizeDiskOnHostOnline storage disk size).1 = none then 1 else 0) := by
  have hresize : taskHandoffs (RequestResizeDiskOnHost storage disk size).2
      = (if (RequestResizeDiskOnHost storage disk size).1 = none then 1 else 0) := by
    cases hstorage : storage.GetIStorage with
    | error err => simp [RequestResizeDiskOnHost, hstorage, taskHandoffs]
    | ok iCloudStorage =>
      cases hdisk : iCloudStorage.GetIDisk disk.GetExternalId with
      | error err => simp [RequestResizeDiskOnHost, hstorage, hdisk, taskHandoffs]
      | ok iDisk =>
        cases hres : iDisk.Resize (size >>> (10 : Nat)) with
        | some err => simp [RequestResizeDiskOnHost, hstorage, hdisk, hres, taskHandoffs]
        | none => simp [RequestResizeDiskOnHost, hstorage, hdisk, hres, taskHandoffs]
  refine ⟨?_, ?_, ?_, taskHandoffs_allocate storage disk task content, ?_, hresize, hresize⟩
  · rcases hp : task.GetParams.GetString ["image_id"] with ⟨x, _ | e⟩
    · rw [CheckAndSetCacheImage_of_image_id storageCache task x hp]
      simp [taskHandoffs]
    · rw [CheckAndSetCacheImage_of_error storageCache task x e hp]
      simp [taskHandoffs]
  · simp [RequestPrepareSaveDiskOnHost, taskHandoffs]
  · cases hdisk : disk.GetIDisk with
    | error err => simp [RequestSaveUploadImageOnHost, hdisk, taskHandoffs]
    | ok iDisk =>
      cases hstorage : disk.GetIStorage with
      | error err => simp [RequestSaveUploadImageOnHost, hdisk, hstorage, taskHandoffs]
      | ok iStorage =>
        cases hcache : iStorage.GetIStoragecache with
        | none => simp [RequestSaveUploadImageOnHost, hdisk, hstorage, hcache, taskHandoffs]
        | some iStoragecache =>
          simp [RequestSaveUploadImageOnHost, hdisk, hstorage, hcache, taskHandoffs]
  · cases hstorage : storage.GetIStorage with
    | error err => simp [RequestDeallocateDiskOnHost, hstorage, taskHandoffs]
    | ok iCloudStorage =>
      cases hdisk : iCloudStorage.GetIDisk disk.GetExternalId with
      | error err =>
        cases hnf : err.isErrNotFound <;>
          simp [RequestDeallocateDiskOnHost, hstorage, hdisk, hnf, taskHandoffs]
      | ok iDisk =>
        cases hdel : iDisk.Delete with
        | some err => simp [RequestDeallocateDiskOnHost, hstorage, hdisk, hdel, taskHandoffs]
        | none => simp [RequestDeallocateDiskOnHost, hstorage, hdisk, hdel, taskHandoffs]

/-- C16: in the `RequestSaveUploadImageOnHost` closure, after a successful
snapshot: if the registered row is not READY, the trace starts with the
snapshot call, `Register`, `SetStatus(CACHING)` and then the image-creation
call, and CACHING is the first status written; if the row is READY, the trace
starts with the snapshot call, `Register` and then the image-creation call,
and CACHING is never written; if the snapshot creation fails, the closure
returns that error, makes no other call (no `Register`, no `SetStatus`) and
leaves the registry as it was. -/
theorem RequestSaveUploadImageOnHost_marks_caching_unless_ready (TempPath : String)
    (iDisk : ICloudDisk) (iStoragecache : ICloudStoragecache) (imageId : String) (task : ITask)
    (reg : Registry) :
    (∀ snapshot,
        iDisk.CreateISnapshot ("Snapshot-" ++ imageId) "PrepareSaveImage" = .ok snapshot →
        (Register reg iStoragecache.GetId imageId).2.Status ≠ CachedImageStatus.READY →
        (∃ rest,
          (RequestSaveUploadImageOnHost_func1 TempPath iDisk iStoragecache imageId task reg).2.2
            = [Event.CreateISnapshot ("Snapshot-" ++ imageId) "PrepareSaveImage",
                Event.Register task.GetUserCred iStoragecache.GetId imageId,
                Event.SetStatus task.GetUserCred CachedImageStatus.CACHING
                  "request_prepare_save_disk_on_host",
                Event.CreateIImage snapshot.GetId ("Image-" ++ imageId)
                  (task.GetParams.GetString ["properties", "os_type"]).1 ""] ++ rest) ∧
        (statusWrites
          (RequestSaveUploadImageOnHost_func1 TempPath iDisk iStoragecache imageId task reg).2.2
          ).head? = some (CachedImageStatus.CACHING, "request_prepare_save_disk_on_host")) ∧
      (∀ snapshot,
        iDisk.CreateISnapshot ("Snapshot-" ++ imageId) "PrepareSaveImage" = .ok snapshot →
        (Register reg iStoragecache.GetId imageId).2.Status = CachedImageStatus.READY →
        (∃ rest,
          (RequestSaveUploadImageOnHost_func1 TempPath iDisk iStoragecache imageId task reg).2.2
            = [Event.CreateISnapshot ("Snapshot-" ++ imageId) "PrepareSaveImage",
                Event.Register task.GetUserCred iStoragecache.GetId imageId,
                Event.CreateIImage snapshot.GetId ("Image-" ++ imageId)
                  (task.GetParams.GetString ["properties", "os_type"]).1 ""] ++ rest) ∧
        (∀ w ∈ statusWrites
          (RequestSaveUploadImageOnHost_func1 TempPath iDisk iStoragecache imageId task reg).2.2,
          w.1 ≠ CachedImageStatus.CACHING)) ∧
      (∀ e, iDisk.CreateISnapshot ("Snapshot-" ++ imageId) "PrepareSaveImage" = .error e →
        RequestSaveUploadImageOnHost_func1 TempPath iDisk iStoragecache imageId task reg
          = (.error e, reg,
              [Event.CreateISnapshot ("Snapshot-" ++ imageId) "PrepareSaveImage"]) ∧
        statusWrites
          (RequestSaveUploadImageOnHost_func1 TempPath iDisk iStoragecache imageId task reg).2.2
          = [] ∧
        Event.Register task.GetUserCred iStoragecache.GetId imageId ∉
          (RequestSaveUploadImageOnHost_func1 TempPath iDisk iStoragecache imageId task reg
            ).2.2) := by
  refine ⟨?_, ?_, ?_⟩
  · intro snapshot hsnap hstatus
    cases himage : iStoragecache.CreateIImage snapshot.GetId ("Image-" ++ imageId)
        (task.GetParams.GetString ["properties", "os_type"]).1 "" with
    | error e =>
      simp [RequestSaveUploadImageOnHost_func1, hsnap, himage, hstatus, statusWrites]
    | ok iImage =>
      cases hdown : iStoragecache.DownloadImage task.GetUserCred imageId iImage.GetId
          TempPath with
      | error e =>
        simp [RequestSaveUploadImageOnHost_func1, hsnap, himage, hdown, hstatus, statusWrites]
      | ok result =>
        simp [RequestSaveUploadImageOnHost_func1, hsnap, himage, hdown, hstatus, statusWrites]
  · intro snapshot hsnap hstatus
    cases himage : iStoragecache.CreateIImage snapshot.GetId ("Image-" ++ imageId)
        (task.GetParams.GetString ["properties", "os_type"]).1 "" with
    | error e =>
      simp [RequestSaveUploadImageOnHost_func1, hsnap, himage, hstatus, statusWrites]
    | ok iImage =>
      cases hdown : iStoragecache.DownloadImage task.GetUserCred imageId iImage.GetId
          TempPath with
      | error e =>
        simp [RequestSaveUploadImageOnHost_func1, hsnap, himage, hdown, hstatus, statusWrites]
      | ok result =>
        simp [RequestSaveUploadImageOnHost_func1, hsnap, himage, hdown, hstatus, statusWrites]
  · intro e hsnap
    simp [RequestSaveUploadImageOnHost_func1, hsnap, statusWrites]

/-- C16, run on a fresh registry (CACHING is written first), on a registry
whose row is READY (CACHING is never written) and on a disk whose snapshot
creation fails. -/
theorem RequestSaveUploadImageOnHost_marks_caching_unless_ready_witness :
    (statusWrites
        (RequestSaveUploadImageOnHost_func1 "/tmp" snapshotDisk sampleStoragecache "img-1"
          sampleTask []).2.2).head?
        = some (CachedImageStatus.CACHING, "request_prepare_save_disk_on_host") ∧
      (∀ w ∈ statusWrites
        (RequestSaveUploadImageOnHost_func1 "/tmp" snapshotDisk sampleStoragecache "img-1"
          sampleTask readyRegistry).2.2, w.1 ≠ CachedImageStatus.CACHING) ∧
      RequestSaveUploadImageOnHost_func1 "/tmp" noSnapshotDisk sampleStoragecache "img-1"
          sampleTask readyRegistry
        = (.error (Errorf "snapshot limit"), readyRegistry,
            [Event.CreateISnapshot ("Snapshot-" ++ "img-1") "PrepareSaveImage"]) :=
  ⟨((RequestSaveUploadImageOnHost_marks_caching_unless_ready "/tmp" snapshotDisk
        sampleStoragecache "img-1" sampleTask []).1
        { GetId := "snap-1", Delete := some (Errorf "busy") } rfl (by decide)).2,
    ((RequestSaveUploadImageOnHost_marks_caching_unless_ready "/tmp" snapshotDisk
        sampleStoragecache "img-1" sampleTask readyRegistry).2.1
        { GetId := "snap-1", Delete := some (Errorf "busy") } rfl rfl).2,
    ((RequestSaveUploadImageOnHost_marks_caching_unless_ready "/tmp" noSnapshotDisk
        sampleStoragecache "img-1" sampleTask readyRegistry).2.2
        (Errorf "snapshot limit") rfl).1⟩

/-! ### Package stringutils -/

/-- The `IndexByte` of a byte that does not occur is -1. -/
theorem IndexByte_of_not_mem (s : GoString) (c : Nat) (h : c ∉ s) : IndexByte s c = -1 := by
  induction s with
  | nil => rfl
  | cons b rest ih =>
    simp only [List.mem_cons, not_or] at h
    have hb : b ≠ c := fun hbc => h.1 hbc.symm
    simp [IndexByte, hb, ih h.2]

/-- The `IndexByte` of a byte is the length of the text before its first
occurrence. -/
theorem IndexByte_append_cons (p t : GoString) (c : Nat) (h : c ∉ p) :
    IndexByte (p ++ c :: t) c = p.length := by
  induction p with
  | nil => simp [IndexByte]
  | cons b rest ih =>
    simp only [List.mem_cons, not_or] at h
    have hb : b ≠ c := fun hbc => h.1 hbc.symm
    have hrest := ih h.2
    have hnot : ¬ ((rest.length : Int) < 0) := by omega
    show IndexByte (b :: (rest ++ c :: t)) c = _
    rw [IndexByte, if_neg hb, hrest, if_neg hnot]
    simp

/-- The loop of `ParseNamePattern` stops at the end of the run of `#`. -/
theorem scan_replicate (j : Nat) (s : GoString) (e : Nat) (hs : s.head? ≠ some RepChar) :
    ParseNamePattern.scan (List.replicate j RepChar ++ s) e = e + j := by
  induction j generalizing e with
  | zero =>
    cases s with
    | nil => rfl
    | cons b rest =>
      have hb : b ≠ RepChar := fun hbc => hs (by simp [hbc])
      simp [ParseNamePattern.scan, hb]
  | succ j ih =>
    have hcons : List.replicate (j + 1) RepChar ++ s
        = RepChar :: (List.replicate j RepChar ++ s) := by
      simp [List.replicate_succ]
    rw [hcons, ParseNamePattern.scan, if_pos rfl, ih]
    omega

/-- A text splits into its leading run of `#` and the rest. -/
theorem exists_leading_run (l : GoString) :
    ∃ k s, l = List.replicate k RepChar ++ s ∧ s.head? ≠ some RepChar := by
  induction l with
  | nil => exact ⟨0, [], rfl, by simp⟩
  | cons b rest ih =>
    by_cases hb : b = RepChar
    · obtain ⟨k, s, hrest, hs⟩ := ih
      exact ⟨k + 1, s, by simp [List.replicate_succ, hb, hrest], hs⟩
    · exact ⟨0, b :: rest, rfl, by simp [hb]⟩

/-- A name that contains `#` splits into the text before the first `#`, the
maximal run of `#` that starts there, and the text after the run. -/
theorem exists_run_decomposition (name : GoString) (h : RepChar ∈ name) :
    ∃ p k s, name = p ++ List.replicate k RepChar ++ s ∧ RepChar ∉ p ∧
      s.head? ≠ some RepChar ∧ 1 ≤ k := by
  induction name with
  | nil => cases h
  | cons b rest ih =>
    by_cases hb : b = RepChar
    · obtain ⟨k, s, hrest, hs⟩ := exists_leading_run rest
      exact ⟨[], k + 1, s, by simp [List.replicate_succ, hb, hrest], by simp, hs, by omega⟩
    · have hmem : RepChar ∈ rest := by
        rcases List.mem_cons.1 h with heq | hmem
        · exact absurd heq.symm hb
        · exact hmem
      obtain ⟨p, k, s, hrest, hp, hs, hk⟩ := ih hmem
      refine ⟨b :: p, k, s, by simp [hrest], ?_, hs, hk⟩
      simp only [List.mem_cons, not_or]
      exact ⟨fun heq => hb heq.symm, hp⟩

/-- C17: for a name `p ++ #^k ++ s` with no `#` in `p`, `k >= 1` and `s` not
starting with `#` (so the run is the first maximal one; `s` may hold later
`#`), `ParseNamePattern` returns `(p ++ "%" ++ s, p ++ "%0" ++ decimal k ++ "d"
++ s, k)`; every name that contains `#` has this form; for a name without `#`
it returns `(name ++ "-%", name ++ "-%d", 0)`. -/
theorem ParseNamePattern_first_run (name : GoString) :
    (∀ (p s : GoString) (k : Nat), name = p ++ List.replicate k RepChar ++ s →
        RepChar ∉ p → s.head? ≠ some RepChar → 1 ≤ k →
        ParseNamePattern name
          = (p ++ ascii "%" ++ s, p ++ ascii "%0" ++ decimal k ++ ascii "d" ++ s, (k : Int))) ∧
      (RepChar ∈ name →
        ∃ p k s, name = p ++ List.replicate k RepChar ++ s ∧ RepChar ∉ p ∧
          s.head? ≠ some RepChar ∧ 1 ≤ k) ∧
      (RepChar ∉ name →
        ParseNamePattern name = (name ++ ascii "-%", name ++ ascii "-%d", 0)) := by
  refine ⟨?_, exists_run_decomposition name, ?_⟩
  · intro p s k hname hp hs hk
    obtain ⟨j, rfl⟩ : ∃ j, k = j + 1 := ⟨k - 1, by omega⟩
    have hform : name = p ++ RepChar :: (List.replicate j RepChar ++ s) := by
      rw [hname]
      simp [List.replicate_succ]
    have hstart : IndexByte name RepChar = (p.length : Int) := by
      rw [hform]
      exact IndexByte_append_cons p _ RepChar hp
    have hdrop : name.drop (p.length + 1) = List.replicate j RepChar ++ s := by
      rw [hform]
      have : p ++ RepChar :: (List.replicate j RepChar ++ s)
          = (p ++ [RepChar]) ++ (List.replicate j RepChar ++ s) := by simp
      rw [this]
      exact List.drop_left' (by simp)
    have hend : ParseNamePattern.scan (name.drop (p.length + 1)) (p.length + 1)
        = p.length + 1 + j := by
      rw [hdrop]
      exact scan_replicate j s _ hs
    have htake : name.take p.length = p := by
      rw [hform]
      exact List.take_left p _
    have htail : name.drop (p.length + 1 + j) = s := by
      rw [hname]
      exact List.drop_left' (by simp; omega)
    have hnonneg : (p.length : Int) ≥ 0 := by omega
    simp only [ParseNamePattern, hstart, hnonneg, if_true, Int.toNat_ofNat, hend, htake, htail]
    have hk1 : p.length + 1 + j - p.length = j + 1 := by omega
    rw [hk1]
    refine Prod.ext rfl (Prod.ext rfl ?_)
    simp only
    push_cast
    omega
  · intro hnot
    simp [ParseNamePattern, IndexByte_of_not_mem name RepChar hnot]

/-- C17, run on the names `vm-##-x#` and `vm`. -/
theorem ParseNamePattern_first_run_witness :
    ParseNamePattern (ascii "vm-##-x#") = (ascii "vm-%-x#", ascii "vm-%02d-x#", 2) ∧
      ParseNamePattern (ascii "vm") = (ascii "vm-%", ascii "vm-%d", 0) :=
  ⟨(ParseNamePattern_first_run (ascii "vm-##-x#")).1 (ascii "vm-") (ascii "-x#") 2
      (by decide) (by decide) (by decide) (by decide),
    (ParseNamePattern_first_run (ascii "vm")).2.2 (by decide)⟩

/-- The `Index` of the first occurrence: when `substr` occurs at byte `pos`
of `s` and at no earlier position, `strings.Index` returns `pos`. -/
theorem Index_of_first_occurrence (s substr : GoString) (pos : Nat)
    (hat : substr.isPrefixOf (s.drop pos) = true)
    (hfirst : ∀ j, j < pos → substr.isPrefixOf (s.drop j) = false) :
    Index s substr = (pos : Int) := by
  induction s generalizing pos with
  | nil =>
    have hnil : substr = [] := by
      cases substr with
      | nil => rfl
      | cons a t => simp [List.isPrefixOf] at hat
    subst hnil
    cases pos with
    | zero => simp [Index]
    | succ n =>
      have := hfirst 0 (by omega)
      simp at this
  | cons b rest ih =>
    cases pos with
    | zero =>
      have h0 : substr.isPrefixOf (b :: rest) = true := by simpa using hat
      simp [Index, h0]
    | succ n =>
      have h0 : substr.isPrefixOf (b :: rest) = false := by simpa using hfirst 0 (by omega)
      have hrest : Index rest substr = (n : Int) := by
        apply ih n
        · simpa using hat
        · intro j hj
          simpa using hfirst (j + 1) (by omega)
      have hnot : ¬ ((n : Int) < 0) := by omega
      rw [Index, h0, hrest]
      simp [hnot]

/-- The `Index` of a text that does not occur is -1. -/
theorem Index_of_no_occurrence (s substr : GoString)
    (hnone : ∀ j, substr.isPrefixOf (s.drop j) = false) : Index s substr = -1 := by
  induction s with
  | nil =>
    have hne : substr ≠ [] := by
      intro hnil
      have := hnone 0
      simp [hnil] at this
    simp [Index, hne]
  | cons b rest ih =>
    have h0 : substr.isPrefixOf (b :: rest) = false := by simpa using hnone 0
    have hrest : Index rest substr = -1 := by
      apply ih
      intro j
      simpa using hnone (j + 1)
    rw [Index, h0, hrest]
    simp

/-- An occurrence of a non-empty text at byte `pos` ends inside the string. -/
theorem occurrence_in_range (s substr : GoString) (pos : Nat) (hne : substr ≠ [])
    (hat : substr.isPrefixOf (s.drop pos) = true) : pos + 1 ≤ s.length := by
  have hprefix := List.isPrefixOf_iff_prefix.1 hat
  have hlen := hprefix.length_le
  have hpos : 0 < substr.length := List.length_pos.2 hne
  rw [List.length_drop] at hlen
  omega

/-- Dropping leading bytes changes nothing when the first byte is kept. -/
theorem dropWhile_eq_self_of_head (q : Nat → Bool) (l : GoString)
    (h : ∀ a, l.head? = some a → q a = false) : l.dropWhile q = l := by
  cases l with
  | nil => rfl
  | cons a t => simp [List.dropWhile, h a rfl]

/-- Trimming ASCII white space twice is trimming it once. -/
theorem asciiTrimSpace_idempotent (s : GoString) :
    asciiTrimSpace (asciiTrimSpace s) = asciiTrimSpace s := by
  unfold asciiTrimSpace
  have hleft : ((s.dropWhile asciiSpace).rdropWhile asciiSpace).dropWhile asciiSpace
      = (s.dropWhile asciiSpace).rdropWhile asciiSpace := by
    apply dropWhile_eq_self_of_head
    intro a ha
    obtain ⟨v, hv⟩ := List.rdropWhile_prefix asciiSpace (l := s.dropWhile asciiSpace)
    have hhead : (s.dropWhile asciiSpace).head? = some a := by
      rw [← hv, List.head?_append, ha]
      rfl
    have hnot := List.head?_dropWhile_not asciiSpace s
    rw [hhead] at hnot
    exact hnot
  rw [hleft, List.rdropWhile_idempotent]

/-- The split at a first occurrence of the separator at a byte `pos > 0`. -/
theorem SplitKeyValueBySep_at_first_occurrence (TrimSpace : GoString → GoString)
    (line sep : GoString) (pos : Nat) (hpos : 0 < pos)
    (hat : sep.isPrefixOf (line.drop pos) = true)
    (hfirst : ∀ j, j < pos → sep.isPrefixOf (line.drop j) = false) :
    pos + 1 ≤ line.length ∧
      SplitKeyValueBySep TrimSpace line sep
        = (TrimSpace (line.take pos), TrimSpace (line.drop (pos + 1))) := by
  have hne : sep ≠ [] := by
    intro hnil
    have := hfirst 0 hpos
    simp [hnil] at this
  have hindex := Index_of_first_occurrence line sep pos hat hfirst
  have hgt : (pos : Int) > 0 := by omega
  refine ⟨occurrence_in_range line sep pos hne hat, ?_⟩
  simp only [SplitKeyValueBySep, hindex, hgt, if_true, Int.toNat_ofNat]

/-- The split at a one-byte separator: the value is the text after the first
separator byte. -/
theorem SplitKeyValueBySep_one_byte (TrimSpace : GoString → GoString) (c : Nat)
    (pre post : GoString) (hc : c ∉ pre) (hpre : pre ≠ []) :
    SplitKeyValueBySep TrimSpace (pre ++ c :: post) [c] = (TrimSpace pre, TrimSpace post) := by
  have hlen : 0 < pre.length := List.length_pos.2 hpre
  have hat : [c].isPrefixOf ((pre ++ c :: post).drop pre.length) = true := by
    rw [List.drop_left]
    simp [List.isPrefixOf]
  have hfirst : ∀ j, j < pre.length → [c].isPrefixOf ((pre ++ c :: post).drop j) = false := by
    intro j hj
    rw [List.drop_append_of_le_length (by omega)]
    have hmem : (pre.drop j).head? ≠ some c := by
      intro hhead
      exact hc (List.mem_of_mem_drop (List.mem_of_mem_head? hhead))
    cases hdrop : pre.drop j with
    | nil =>
      have := List.drop_eq_nil_iff.1 hdrop
      omega
    | cons a t =>
      rw [hdrop] at hmem
      have hac : c ≠ a := fun h => hmem (by simp [h])
      simp [List.isPrefixOf, hac]
  have hresult :=
    (SplitKeyValueBySep_at_first_occurrence TrimSpace (pre ++ c :: post) [c] pre.length hlen hat
      hfirst).2
  rw [hresult, List.take_left]
  have hdrop : (pre ++ c :: post).drop (pre.length + 1) = post := by
    have : pre ++ c :: post = (pre ++ [c]) ++ post := by simp
    rw [this]
    exact List.drop_left' (by simp)
  rw [hdrop]

/-- C18: `SplitKeyValueBySep` splits at the first occurrence of the separator
when that occurrence is at a byte position `pos > 0`: the key is the trimmed
`line[:pos]`, the value the trimmed `line[pos+1:]`, and `pos + 1` is within the
line; for a one-byte separator, and for the `:` of `SplitKeyValue`, the value is
the trimmed text after the first separator, later separators included; when
the separator does not occur, occurs at position 0 or is empty the result is
two empty strings; and both results are left unchanged by `TrimSpace`, that
is, they have no leading or trailing white space. -/
theorem SplitKeyValueBySep_first_occurrence (TrimSpace : GoString → GoString)
    (line sep : GoString) :
    (∀ pos : Nat, 0 < pos → sep.isPrefixOf (line.drop pos) = true →
        (∀ j, j < pos → sep.isPrefixOf (line.drop j) = false) →
        pos + 1 ≤ line.length ∧
        SplitKeyValueBySep TrimSpace line sep
          = (TrimSpace (line.take pos), TrimSpace (line.drop (pos + 1)))) ∧
      (∀ (c : Nat) (pre post : GoString), line = pre ++ c :: post → c ∉ pre → pre ≠ [] →
        sep = [c] →
        SplitKeyValueBySep TrimSpace line sep = (TrimSpace pre, TrimSpace post)) ∧
      (∀ (pre post : GoString), line = pre ++ 58 :: post → 58 ∉ pre → pre ≠ [] →
        SplitKeyValue TrimSpace line = (TrimSpace pre, TrimSpace post)) ∧
      ((∀ j, sep.isPrefixOf (line.drop j) = false) →
        SplitKeyValueBySep TrimSpace line sep = ([], [])) ∧
      (sep.isPrefixOf line = true → SplitKeyValueBySep TrimSpace line sep = ([], [])) ∧
      (sep = [] → SplitKeyValueBySep TrimSpace line sep = ([], [])) ∧
      (TrimSpace [] = [] → (∀ t, TrimSpace (TrimSpace t) = TrimSpace t) →
        TrimSpace (SplitKeyValueBySep TrimSpace line sep).1
            = (SplitKeyValueBySep TrimSpace line sep).1 ∧
          TrimSpace (SplitKeyValueBySep TrimSpace line sep).2
            = (SplitKeyValueBySep TrimSpace line sep).2) := by
  have hzero : sep.isPrefixOf line = true →
      SplitKeyValueBySep TrimSpace line sep = ([], []) := by
    intro hat
    have hindex := Index_of_first_occurrence line sep 0 (by simpa using hat)
      (fun j hj => absurd hj (Nat.not_lt_zero j))
    simp [SplitKeyValueBySep, hindex]
  refine ⟨SplitKeyValueBySep_at_first_occurrence TrimSpace line sep, ?_, ?_, ?_, hzero, ?_, ?_⟩
  · intro c pre post hline hc hpre hsep
    rw [hline, hsep]
    exact SplitKeyValueBySep_one_byte TrimSpace c pre post hc hpre
  · intro pre post hline hc hpre
    rw [hline]
    exact SplitKeyValueBySep_one_byte TrimSpace 58 pre post hc hpre
  · intro hnone
    simp [SplitKeyValueBySep, Index_of_no_occurrence line sep hnone]
  · intro hnil
    exact hzero (by simp [hnil])
  · intro hempty hidem
    unfold SplitKeyValueBySep
    by_cases hpos : Index line sep > 0
    · simp only [hpos, if_true, hidem, and_self]
    · simp only [hpos, if_false, hempty, and_self]

/-- C18, run with the ASCII `TrimSpace` on ` a : b:c ` (split at the first
`:`, the second one stays in the value), on `a=>b` with the two-byte separator
`=>` (the value starts one byte after the position of the separator) and on
`:x` (separator at position 0). -/
theorem SplitKeyValueBySep_first_occurrence_witness :
    SplitKeyValueBySep asciiTrimSpace (ascii " a : b:c ") (ascii ":")
        = (ascii "a", ascii "b:c") ∧
      SplitKeyValueBySep asciiTrimSpace (ascii "a=>b") (ascii "=>") = (ascii "a", ascii ">b") ∧
      SplitKeyValueBySep asciiTrimSpace (ascii ":x") (ascii ":") = ([], []) ∧
      (asciiTrimSpace (SplitKeyValueBySep asciiTrimSpace (ascii " a : b:c ") (ascii ":")).1
          = (SplitKeyValueBySep asciiTrimSpace (ascii " a : b:c ") (ascii ":")).1 ∧
        asciiTrimSpace (SplitKeyValueBySep asciiTrimSpace (ascii " a : b:c ") (ascii ":")).2
          = (SplitKeyValueBySep asciiTrimSpace (ascii " a : b:c ") (ascii ":")).2) :=
  ⟨((SplitKeyValueBySep_first_occurrence asciiTrimSpace (ascii " a : b:c ") (ascii ":")).1 3
      (by decide) (by decide) (by decide)).2,
    ((SplitKeyValueBySep_first_occurrence asciiTrimSpace (ascii "a=>b") (ascii "=>")).1 1
      (by decide) (by decide) (by decide)).2,
    (SplitKeyValueBySep_first_occurrence asciiTrimSpace (ascii ":x") (ascii ":")).2.2.2.2.1
      (by decide),
    (SplitKeyValueBySep_first_occurrence asciiTrimSpace (ascii " a : b:c ")
      (ascii ":")).2.2.2.2.2.2 rfl asciiTrimSpace_idempotent⟩

end Onecloud
